import Mathlib

/-!
Shallow embedding of the HOS (Hours of Service) trip simulator from
`eldpro/trips/services/hos_simulator.py` (class `HOSCompliantTripSimulator`).

Modelling conventions:
* Python floats are modelled by exact rationals (`ℚ`).
* A `datetime` value is modelled by the rational number of hours since a
  fixed epoch midnight; `t.date()` is `⌊t / 24⌋` (an integer epoch day),
  `datetime.combine(d, datetime.min.time())` is `24 * d`, and
  `datetime.combine(d, datetime.max.time())` is `24 * d + (24 - 1/3600000000)`
  (23:59:59.999999, i.e. one microsecond before the next midnight).
* `strftime('%H:%M')` is modelled by the pair (hour, minute) of the time of
  day, and `strftime('%m/%d/%Y')` by the integer epoch day itself (both are
  injective renderings, so equality/distinctness of reports is preserved).
* Python's `round(x, 1)` (round half to even) is `pyround1`, `int(x)`
  (truncation toward zero) is `pyint`, and `%` on floats is `pymod`.
* The mutable `simulation` dict is the structure `SimState`; the loop-local
  variables of `_simulate_leg` (`remaining_distance`,
  `distance_covered_this_leg`, `last_fuel_miles`) live in `LegSt`.
* The `while` loop of `_simulate_leg` is modelled by `leg_loop`, structural
  recursion on an iteration budget; `none` means the budget was exhausted
  with distance still remaining (termination is proved separately).
-/

/-- Python `%` for a positive divisor: the representative of `a` mod `b`
in `[0, b)`, as computed by CPython for floats. -/
def pymod (a b : ℚ) : ℚ := a - b * (⌊a / b⌋ : ℚ)

/-- Python `int(x)`: truncation toward zero. -/
def pyint (q : ℚ) : ℤ := if 0 ≤ q then ⌊q⌋ else -⌊-q⌋

/-- Round a rational to the nearest integer, halves to even
(CPython's `round`). -/
def roundHalfEven (q : ℚ) : ℤ :=
  let f : ℤ := ⌊q⌋
  let r := q - (f : ℚ)
  if r < 1/2 then f
  else if r > 1/2 then f + 1
  else if f % 2 = 0 then f else f + 1

/-- Python `round(x, 1)`. -/
def pyround1 (q : ℚ) : ℚ := (roundHalfEven (q * 10) : ℚ) / 10

/-- Python `round(x, 0)` (still a float in Python, hence a rational here). -/
def pyround0 (q : ℚ) : ℚ := (roundHalfEven q : ℚ)

/-- Epoch day of a timestamp (Python `t.date()`). -/
def dateOf (t : ℚ) : ℤ := ⌊t / 24⌋

/-- Rendering of `strftime('%H:%M')`: hour and minute of the time of day. -/
def hmOf (t : ℚ) : Nat × Nat :=
  let tod := pymod t 24
  ((⌊tod⌋).toNat, (⌊(tod - (⌊tod⌋ : ℚ)) * 60⌋).toNat)

/-- The four duty statuses appearing in the simulator's events. -/
inductive DutyStatus
  | off_duty
  | sleeper_berth
  | driving
  | on_duty
deriving DecidableEq, Repr

/-- An entry of `simulation['events']` as appended by `_add_event`. -/
structure Event where
  time : ℚ
  status : DutyStatus
  description : String
  location : String
  day : ℤ
deriving DecidableEq, Repr

/-- An entry of `simulation['fuel_stops']` as appended by `_add_fuel_stop`. -/
structure FuelStop where
  lat : ℚ
  lng : ℚ
  name : String
  distance : ℚ
  duration : ℚ
deriving DecidableEq, Repr

/-- An entry of `simulation['break_stops']` as appended by `_take_break`
(the dict key `'type'` is the field `stopType`). -/
structure BreakStop where
  lat : ℚ
  lng : ℚ
  name : String
  time : Nat × Nat
  duration : ℚ
  stopType : String
deriving DecidableEq, Repr

/-- An entry of `simulation['rest_stops']` as appended by `_take_rest`. -/
structure RestStop where
  lat : ℚ
  lng : ℚ
  name : String
  time : Nat × Nat
  duration : ℚ
  day : ℤ
deriving DecidableEq, Repr

/-- The `simulation` dict built in `simulate_trip` and threaded through
`_simulate_leg`, `_take_break`, `_take_rest`, `_add_fuel_stop`,
`_add_event`. -/
structure SimState where
  trip_start_time : ℚ
  current_time : ℚ
  current_duty_hours : ℚ
  current_driving_hours : ℚ
  current_cycle_hours : ℚ
  miles_driven : ℚ
  current_day : ℤ
  events : List Event
  fuel_stops : List FuelStop
  rest_stops : List RestStop
  break_stops : List BreakStop
deriving DecidableEq, Repr

/-- The `location` argument of `_add_event`: the call sites pass either a
coordinate tuple or a string. -/
inductive LocArg
  | coords (lon lat : ℚ)
  | str (s : String)
deriving DecidableEq, Repr

/-- `_get_day_number`: calendar days between the two timestamps, plus 1. -/
def get_day_number (current_time trip_start_time : ℚ) : ℤ :=
  dateOf current_time - dateOf trip_start_time + 1

/-- `_add_event`: appends an event; the `location` field receives the
description when the argument is a tuple, and again the description when it
is a string. -/
def add_event (s : SimState) (status : DutyStatus) (descr : String)
    (loc : LocArg) : SimState :=
  let location_name : String :=
    match loc with
    | .coords _ _ => descr
    | .str _ => descr
  let day := get_day_number s.current_time s.trip_start_time
  { s with events := s.events ++
      [{ time := s.current_time, status := status, description := descr,
         location := location_name, day := day }] }

/-- `_interpolate_location`: linear interpolation, returning
(longitude, latitude). -/
def interpolate_location (a b : ℚ × ℚ) (progress : ℚ) : ℚ × ℚ :=
  (a.1 + (b.1 - a.1) * progress, a.2 + (b.2 - a.2) * progress)

/-- `_take_break`: 30-minute on-duty break; resets the 8-hour driving
clock, duty and cycle hours keep accruing. -/
def take_break (s : SimState) (loc : ℚ × ℚ) : SimState :=
  let s : SimState := add_event s .on_duty "30-min Break" (.coords loc.1 loc.2)
  let s : SimState := { s with break_stops := s.break_stops ++
      [{ lat := loc.2, lng := loc.1, name := "30-Minute Break",
         time := hmOf s.current_time, duration := 1/2,
         stopType := "30-min break" }] }
  { s with current_time := s.current_time + 1/2,
           current_duty_hours := s.current_duty_hours + 1/2,
           current_cycle_hours := s.current_cycle_hours + 1/2,
           current_driving_hours := 0 }

/-- `_take_rest`: rest of the given duration; resets duty and driving
hours, leaves cycle hours and miles unchanged. -/
def take_rest (s : SimState) (duration : ℚ) (rest_type : DutyStatus)
    (loc : ℚ × ℚ) : SimState :=
  let s : SimState := add_event s rest_type "10-hour Rest" (.coords loc.1 loc.2)
  let s : SimState := { s with rest_stops := s.rest_stops ++
      [{ lat := loc.2, lng := loc.1, name := "10-Hour Rest",
         time := hmOf s.current_time, duration := duration,
         day := get_day_number s.current_time s.trip_start_time }] }
  { s with current_time := s.current_time + duration,
           current_duty_hours := 0,
           current_driving_hours := 0 }

/-- `_add_fuel_stop`: 30-minute on-duty fuel stop. -/
def add_fuel_stop (s : SimState) (loc : ℚ × ℚ) : SimState :=
  let s : SimState := add_event s .on_duty "Fuel Stop" (.coords loc.1 loc.2)
  let s : SimState := { s with fuel_stops := s.fuel_stops ++
      [{ lat := loc.2, lng := loc.1, name := "Fuel Stop",
         distance := pyround0 s.miles_driven, duration := 1/2 }] }
  { s with current_time := s.current_time + 1/2,
           current_duty_hours := s.current_duty_hours + 1/2,
           current_cycle_hours := s.current_cycle_hours + 1/2 }

/-- The loop state of `_simulate_leg`: the shared simulation state plus the
loop-local variables. -/
structure LegSt where
  sim : SimState
  remaining_distance : ℚ
  distance_covered_this_leg : ℚ
  last_fuel_miles : ℚ
deriving DecidableEq, Repr

/-- The per-leg parameters of `_simulate_leg`. -/
structure LegCtx where
  distance : ℚ
  leg_type : String
  start_location : ℚ × ℚ
  destination : ℚ × ℚ
deriving DecidableEq, Repr

/-- `progress = distance_covered_this_leg / distance if distance > 0 else 0`. -/
def leg_progress (c : LegCtx) (covered : ℚ) : ℚ :=
  if c.distance > 0 then covered / c.distance else 0

/-- The 10-hour-rest check at the top of the `_simulate_leg` loop body. -/
def leg_rest_check (c : LegCtx) (st : LegSt) : LegSt :=
  if st.sim.current_duty_hours ≥ 14 then
    let progress := leg_progress c st.distance_covered_this_leg
    let rest_location := interpolate_location c.start_location c.destination progress
    { st with sim := take_rest st.sim 10 .sleeper_berth rest_location }
  else st

/-- The 30-minute-break check of the `_simulate_leg` loop body. -/
def leg_break_check (c : LegCtx) (st : LegSt) : LegSt :=
  if st.sim.current_driving_hours ≥ 8 then
    let progress := leg_progress c st.distance_covered_this_leg
    let break_location := interpolate_location c.start_location c.destination progress
    { st with sim := take_break st.sim break_location }
  else st

/-- Both checks, in source order. -/
def leg_checks (c : LegCtx) (st : LegSt) : LegSt :=
  leg_break_check c (leg_rest_check c st)

/-- `available_drive_time` as computed in `_simulate_leg` (Python
`min(11 - driving, 14 - duty, 8 - driving % 8)`). -/
def available_drive_time (s : SimState) : ℚ :=
  min (11 - s.current_driving_hours)
    (min (14 - s.current_duty_hours)
      (8 - pymod s.current_driving_hours 8))

/-- The six duplicated lines that record one driving stretch of `mi` miles:
append a DRIVING event, advance the clock and all hour counters by
`mi / 55`, add `mi` to `miles_driven`. -/
def apply_drive (c : LegCtx) (s : SimState) (mi : ℚ) : SimState :=
  let drive_hours := mi / 55
  let s : SimState := add_event s .driving ("Driving (" ++ c.leg_type ++ ")")
      (.str ("En route " ++ c.leg_type))
  { s with current_time := s.current_time + drive_hours,
           current_driving_hours := s.current_driving_hours + drive_hours,
           current_duty_hours := s.current_duty_hours + drive_hours,
           current_cycle_hours := s.current_cycle_hours + drive_hours,
           miles_driven := s.miles_driven + mi }

/-- The driving part of one `_simulate_leg` loop iteration: compute the
drivable distance, then either drive to a fuel stop (branch
`miles_since_fuel + drive_miles >= 1000`) or drive a normal segment. -/
def drive_segment (c : LegCtx) (st : LegSt) : LegSt :=
  let s := st.sim
  let can_drive_miles := available_drive_time s * 55
  let drive_miles := min can_drive_miles st.remaining_distance
  let miles_since_fuel := s.miles_driven - st.last_fuel_miles
  if miles_since_fuel + drive_miles ≥ 1000 then
    let drive_to_fuel := 1000 - miles_since_fuel
    let s : SimState := apply_drive c s drive_to_fuel
    let covered := st.distance_covered_this_leg + drive_to_fuel
    let remaining := st.remaining_distance - drive_to_fuel
    let progress := leg_progress c covered
    let fuel_location := interpolate_location c.start_location c.destination progress
    let s : SimState := add_fuel_stop s fuel_location
    { sim := s, remaining_distance := remaining,
      distance_covered_this_leg := covered,
      last_fuel_miles := s.miles_driven }
  else
    let s : SimState := apply_drive c s drive_miles
    { sim := s,
      remaining_distance := st.remaining_distance - drive_miles,
      distance_covered_this_leg := st.distance_covered_this_leg + drive_miles,
      last_fuel_miles := st.last_fuel_miles }

/-- One full iteration of the `while remaining_distance > 0` body. -/
def leg_step (c : LegCtx) (st : LegSt) : LegSt :=
  drive_segment c (leg_checks c st)

/-- The `while remaining_distance > 0` loop, with an iteration budget:
`none` means the budget ran out before the distance was covered. -/
def leg_loop (c : LegCtx) : Nat → LegSt → Option LegSt
  | 0, st => if st.remaining_distance ≤ 0 then some st else none
  | n + 1, st =>
    if st.remaining_distance ≤ 0 then some st
    else leg_loop c n (leg_step c st)

/-- `_simulate_leg`: initialize the loop-local variables
(`remaining_distance = distance`, `distance_covered_this_leg = 0`,
`last_fuel_miles = miles_driven`) and run the loop. -/
def simulate_leg (c : LegCtx) (fuel : Nat) (s : SimState) : Option SimState :=
  (leg_loop c fuel
    { sim := s, remaining_distance := c.distance,
      distance_covered_this_leg := 0,
      last_fuel_miles := s.miles_driven }).map (fun st => st.sim)

/-- The per-status hour totals of one daily log sheet. -/
structure DayTotals where
  offDuty : ℚ
  sleeperBerth : ℚ
  driving : ℚ
  onDuty : ℚ
deriving DecidableEq, Repr

/-- One entry of a daily log's `dutyStatusChanges` list (the `location`
field receives the event's description, as in the source). -/
structure DutyChange where
  time : Nat × Nat
  status : DutyStatus
  location : String
deriving DecidableEq, Repr

/-- One daily log sheet (`LogSheetData`); `date` is the epoch day
rendered by `strftime('%m/%d/%Y')`, a remark is the pair rendered by
`f"{time_str} - {description}"`. -/
structure DayLog where
  date : ℤ
  day : ℤ
  driverName : String
  carrierName : String
  vehicleNumber : String
  totalMiles : ℤ
  dutyStatusChanges : List DutyChange
  remarks : List ((Nat × Nat) × String)
  totals : DayTotals
deriving DecidableEq, Repr

/-- The fresh log sheet created for a day (both creation sites build this
same record). -/
def newDayLog (date day : ℤ) : DayLog :=
  { date := date, day := day, driverName := "John Doe",
    carrierName := "ELD Pro Transport", vehicleNumber := "TRK-101",
    totalMiles := 0, dutyStatusChanges := [], remarks := [],
    totals := { offDuty := 0, sleeperBerth := 0, driving := 0, onDuty := 0 } }

/-- `day in daily_logs` for the insertion-ordered rendering of the
`daily_logs` dict. -/
def hasDay (logs : List DayLog) (d : ℤ) : Bool :=
  logs.any (fun l => l.day = d)

/-- Mutation of `daily_logs[day]` : apply `f` to the (unique) log of that
day. -/
def updateDay (logs : List DayLog) (d : ℤ) (f : DayLog → DayLog) :
    List DayLog :=
  match logs with
  | [] => []
  | l :: rest => if l.day = d then f l :: rest else l :: updateDay rest d f

/-- `daily_logs[day] = {...}` when absent (dict insertion keeps order). -/
def ensureDay (logs : List DayLog) (d : ℤ) (date : ℤ) : List DayLog :=
  if hasDay logs d then logs else logs ++ [newDayLog date d]

/-- Credit `dur` hours of `status` to day `d` (the `elif` chain over
`event['status']`): bump that status's total, and for DRIVING also add
`int(dur * 55)` estimated miles. -/
def creditDay (logs : List DayLog) (d : ℤ) (status : DutyStatus) (dur : ℚ) :
    List DayLog :=
  updateDay logs d (fun l =>
    match status with
    | .off_duty =>
      { l with totals := { l.totals with offDuty := l.totals.offDuty + dur } }
    | .sleeper_berth =>
      { l with totals :=
          { l.totals with sleeperBerth := l.totals.sleeperBerth + dur } }
    | .driving =>
      { l with totals := { l.totals with driving := l.totals.driving + dur },
               totalMiles := l.totalMiles + pyint (dur * 55) }
    | .on_duty =>
      { l with totals := { l.totals with onDuty := l.totals.onDuty + dur } })

/-- Processing of one event in `_generate_daily_logs` (the body of
`for i, event in enumerate(events)`, with `next?` the event at `i + 1`
when it exists). -/
def processEvent (logs : List DayLog) (e : Event) (next? : Option Event) :
    List DayLog :=
  let logs := ensureDay logs e.day (dateOf e.time)
  let logs := updateDay logs e.day (fun l =>
    { l with
      dutyStatusChanges := l.dutyStatusChanges ++
        [{ time := hmOf e.time, status := e.status, location := e.description }],
      remarks := l.remarks ++ [(hmOf e.time, e.description)] })
  match next? with
  | none => logs
  | some nx =>
    let duration := nx.time - e.time
    if nx.day = e.day then
      creditDay logs e.day e.status duration
    else
      let day_end : ℚ := 24 * (dateOf e.time : ℚ) + (24 - 1/3600000000)
      let duration_today := day_end - e.time
      let duration_tomorrow := duration - duration_today
      let logs := creditDay logs e.day e.status duration_today
      let logs := ensureDay logs nx.day (dateOf nx.time)
      let logs := updateDay logs nx.day (fun l =>
        { l with dutyStatusChanges :=
            { time := (0, 0), status := e.status,
              location := e.description ++ " (continued)" } ::
            l.dutyStatusChanges })
      creditDay logs nx.day e.status duration_tomorrow

/-- The event loop of `_generate_daily_logs`. -/
def logsLoop : List Event → List DayLog → List DayLog
  | [], logs => logs
  | e :: rest, logs => logsLoop rest (processEvent logs e rest.head?)

/-- `_generate_daily_logs` before its final rounding pass. -/
def generate_daily_logs_raw (events : List Event) : List DayLog :=
  logsLoop events []

/-- The final `round(…, 1)` pass over the four totals. -/
def roundTotals (t : DayTotals) : DayTotals :=
  { offDuty := pyround1 t.offDuty, sleeperBerth := pyround1 t.sleeperBerth,
    driving := pyround1 t.driving, onDuty := pyround1 t.onDuty }

/-- `_generate_daily_logs(events, trip_start_midnight)`; the second
argument is unused by the source body, and kept here. -/
def generate_daily_logs (events : List Event) (trip_start_midnight : ℚ) :
    List DayLog :=
  let _ := trip_start_midnight
  (generate_daily_logs_raw events).map
    (fun l => { l with totals := roundTotals l.totals })

/-- A route result as consumed by `simulate_trip`: what `get_route`
returns (`distance_miles`, `duration_hours`, and the polyline as
(lat, lng) pairs). -/
structure RouteLeg where
  distance_miles : ℚ
  duration_hours : ℚ
  route_coordinates : List (ℚ × ℚ)
deriving DecidableEq, Repr

/-- The `route` part of the report. -/
structure RouteInfo where
  distance_miles : ℚ
  duration_hours : ℚ
  route_coordinates : List (ℚ × ℚ)
  segments : List Unit
deriving DecidableEq, Repr

/-- The pickup/dropoff stop records of the report. -/
structure StopInfo where
  lat : ℚ
  lng : ℚ
  name : String
  duration : ℚ
deriving DecidableEq, Repr

/-- The `stops` part of the report. -/
structure StopsInfo where
  pickup : StopInfo
  dropoff : StopInfo
  fuel_stops : List FuelStop
  rest_stops : List RestStop
  break_stops : List BreakStop
deriving DecidableEq, Repr

/-- The `timeline` part of the report (clock times rendered as
(hour, minute)). -/
structure TimelineInfo where
  start_time : Nat × Nat
  estimated_completion : Nat × Nat
  total_days : Nat
deriving DecidableEq, Repr

/-- The `hos_summary` part of the report. -/
structure HosSummary where
  remaining_70hr_cycle : ℚ
  used_70hr_cycle : ℚ
  driving_time_used : ℚ
  on_duty_time_used : ℚ
deriving DecidableEq, Repr

/-- The value returned by `simulate_trip` (`TripResponse`). -/
structure TripReport where
  route : RouteInfo
  stops : StopsInfo
  timeline : TimelineInfo
  hos_summary : HosSummary
  logs : List DayLog
deriving DecidableEq, Repr

/-- All arguments of one `simulate_trip` call: its parameters, the wall
clock `now` read when `start_time` is `None`, the two `get_route` results,
and the iteration budget of the leg loops. -/
structure TripArgs where
  fuel : Nat
  current_location : ℚ × ℚ
  pickup_location : ℚ × ℚ
  dropoff_location : ℚ × ℚ
  current_cycle_hours : ℚ
  start_time : Option ℚ
  now : ℚ
  leg1 : RouteLeg
  leg2 : RouteLeg
deriving DecidableEq, Repr

/-- A `simulate_trip` call after the `start_time is None` resolution at
the top of the function body: as `TripArgs`, but with the effective start
time already a plain timestamp. -/
structure TripCall where
  fuel : Nat
  current_location : ℚ × ℚ
  pickup_location : ℚ × ℚ
  dropoff_location : ℚ × ℚ
  current_cycle_hours : ℚ
  start_time : ℚ
  leg1 : RouteLeg
  leg2 : RouteLeg
deriving DecidableEq, Repr

/-- The effective start time: the argument when given, otherwise
`datetime.now().replace(hour=6, minute=0, second=0, microsecond=0)`. -/
def trip_eff_start (a : TripArgs) : ℚ :=
  match a.start_time with
  | some t => t
  | none => 24 * (⌊a.now / 24⌋ : ℚ) + 6

/-- The resolution of `start_time = None` against the wall clock
(lines 132–133 of the source). -/
def trip_call (a : TripArgs) : TripCall :=
  { fuel := a.fuel, current_location := a.current_location,
    pickup_location := a.pickup_location,
    dropoff_location := a.dropoff_location,
    current_cycle_hours := a.current_cycle_hours,
    start_time := trip_eff_start a, leg1 := a.leg1, leg2 := a.leg2 }

/-- Midnight of the first day
(`datetime.combine(trip_start_date, datetime.min.time())`). -/
def trip_midnight (a : TripCall) : ℚ :=
  24 * (dateOf a.start_time : ℚ)

/-- The simulation state after initialization, the optional pre-work
OFF_DUTY event, and the ON_DUTY "Trip Start" event. -/
def trip_init_state (a : TripCall) : SimState :=
  let start_time := a.start_time
  let midnight := trip_midnight a
  let s : SimState :=
    { trip_start_time := start_time, current_time := midnight,
      current_duty_hours := 0, current_driving_hours := 0,
      current_cycle_hours := a.current_cycle_hours, miles_driven := 0,
      current_day := 1, events := [], fuel_stops := [], rest_stops := [],
      break_stops := [] }
  let s : SimState :=
    if start_time > midnight then
      let s := add_event s .off_duty "Off Duty (Pre-work)"
        (.coords a.current_location.1 a.current_location.2)
      { s with current_time := start_time }
    else s
  add_event s .on_duty "Trip Start"
    (.coords a.current_location.1 a.current_location.2)

/-- The first leg's context (`current → pickup`). -/
def trip_leg1_ctx (a : TripCall) : LegCtx :=
  { distance := a.leg1.distance_miles, leg_type := "to_pickup",
    start_location := a.current_location, destination := a.pickup_location }

/-- The second leg's context (`pickup → dropoff`). -/
def trip_leg2_ctx (a : TripCall) : LegCtx :=
  { distance := a.leg2.distance_miles, leg_type := "to_dropoff",
    start_location := a.pickup_location, destination := a.dropoff_location }

/-- State after leg 1. -/
def trip_after_leg1 (a : TripCall) : Option SimState :=
  simulate_leg (trip_leg1_ctx a) a.fuel (trip_init_state a)

/-- The pickup activity: ON_DUTY event, then 1 hour added to the clock,
duty hours and cycle hours. -/
def pickup_apply (a : TripCall) (s : SimState) : SimState :=
  let s : SimState := add_event s .on_duty "Pickup - Loading"
    (.coords a.pickup_location.1 a.pickup_location.2)
  { s with current_time := s.current_time + 1,
           current_duty_hours := s.current_duty_hours + 1,
           current_cycle_hours := s.current_cycle_hours + 1 }

/-- State after leg 1 and the pickup activity. -/
def trip_after_pickup (a : TripCall) : Option SimState :=
  (trip_after_leg1 a).map (pickup_apply a)

/-- State after leg 2. -/
def trip_after_leg2 (a : TripCall) : Option SimState :=
  (trip_after_pickup a).bind (fun s => simulate_leg (trip_leg2_ctx a) a.fuel s)

/-- The dropoff activity and the closing OFF_DUTY "Trip Complete" event. -/
def dropoff_apply (a : TripCall) (s : SimState) : SimState :=
  let s : SimState := add_event s .on_duty "Dropoff - Unloading"
    (.coords a.dropoff_location.1 a.dropoff_location.2)
  let s : SimState :=
    { s with current_time := s.current_time + 1,
             current_duty_hours := s.current_duty_hours + 1,
             current_cycle_hours := s.current_cycle_hours + 1 }
  add_event s .off_duty "Trip Complete"
    (.coords a.dropoff_location.1 a.dropoff_location.2)

/-- The final simulation state of the trip. -/
def trip_final (a : TripCall) : Option SimState :=
  (trip_after_leg2 a).map (dropoff_apply a)

/-- Assembly of the returned report from the final simulation state. -/
def build_report (a : TripCall) (s : SimState) : TripReport :=
  let total_distance := a.leg1.distance_miles + a.leg2.distance_miles
  let daily_logs := generate_daily_logs s.events (trip_midnight a)
  { route :=
      { distance_miles := pyround1 total_distance,
        duration_hours := pyround1 (total_distance / 55),
        route_coordinates := a.leg1.route_coordinates ++ a.leg2.route_coordinates,
        segments := [] },
    stops :=
      { pickup := { lat := a.pickup_location.2, lng := a.pickup_location.1,
                    name := "Pickup Location", duration := 1 },
        dropoff := { lat := a.dropoff_location.2, lng := a.dropoff_location.1,
                     name := "Dropoff Location", duration := 1 },
        fuel_stops := s.fuel_stops, rest_stops := s.rest_stops,
        break_stops := s.break_stops },
    timeline :=
      { start_time := hmOf a.start_time,
        estimated_completion := hmOf s.current_time,
        total_days := daily_logs.length },
    hos_summary :=
      { remaining_70hr_cycle := 70 - s.current_cycle_hours,
        used_70hr_cycle := s.current_cycle_hours,
        driving_time_used := pyround1 s.current_driving_hours,
        on_duty_time_used := pyround1 s.current_duty_hours },
    logs := daily_logs }

/-- The orchestration after start-time resolution. -/
def simulate_trip_resolved (a : TripCall) : Option TripReport :=
  (trip_final a).map (build_report a)

/-- `simulate_trip`: the full orchestration; `none` only when an
iteration budget ran out. -/
def simulate_trip (a : TripArgs) : Option TripReport :=
  simulate_trip_resolved (trip_call a)

/-! ### Unfolding equations for the state operations -/

/-- The event appended by `_add_event` for a given state. -/
def mk_event (s : SimState) (status : DutyStatus) (descr : String) : Event :=
  { time := s.current_time, status := status, description := descr,
    location := descr,
    day := get_day_number s.current_time s.trip_start_time }

theorem add_event_spec (s : SimState) (status : DutyStatus) (descr : String)
    (loc : LocArg) :
    add_event s status descr loc =
      { s with events := s.events ++ [mk_event s status descr] } := by
  cases loc <;> rfl

theorem take_break_spec (s : SimState) (loc : ℚ × ℚ) :
    take_break s loc =
      { s with
        events := s.events ++ [mk_event s .on_duty "30-min Break"],
        break_stops := s.break_stops ++
          [{ lat := loc.2, lng := loc.1, name := "30-Minute Break",
             time := hmOf s.current_time, duration := 1/2,
             stopType := "30-min break" }],
        current_time := s.current_time + 1/2,
        current_duty_hours := s.current_duty_hours + 1/2,
        current_cycle_hours := s.current_cycle_hours + 1/2,
        current_driving_hours := 0 } := rfl

theorem take_rest_spec (s : SimState) (duration : ℚ) (rest_type : DutyStatus)
    (loc : ℚ × ℚ) :
    take_rest s duration rest_type loc =
      { s with
        events := s.events ++ [mk_event s rest_type "10-hour Rest"],
        rest_stops := s.rest_stops ++
          [{ lat := loc.2, lng := loc.1, name := "10-Hour Rest",
             time := hmOf s.current_time, duration := duration,
             day := get_day_number s.current_time s.trip_start_time }],
        current_time := s.current_time + duration,
        current_duty_hours := 0,
        current_driving_hours := 0 } := rfl

theorem add_fuel_stop_spec (s : SimState) (loc : ℚ × ℚ) :
    add_fuel_stop s loc =
      { s with
        events := s.events ++ [mk_event s .on_duty "Fuel Stop"],
        fuel_stops := s.fuel_stops ++
          [{ lat := loc.2, lng := loc.1, name := "Fuel Stop",
             distance := pyround0 s.miles_driven, duration := 1/2 }],
        current_time := s.current_time + 1/2,
        current_duty_hours := s.current_duty_hours + 1/2,
        current_cycle_hours := s.current_cycle_hours + 1/2 } := rfl

theorem apply_drive_spec (c : LegCtx) (s : SimState) (mi : ℚ) :
    apply_drive c s mi =
      { s with
        events := s.events ++
          [mk_event s .driving ("Driving (" ++ c.leg_type ++ ")")],
        current_time := s.current_time + mi / 55,
        current_driving_hours := s.current_driving_hours + mi / 55,
        current_duty_hours := s.current_duty_hours + mi / 55,
        current_cycle_hours := s.current_cycle_hours + mi / 55,
        miles_driven := s.miles_driven + mi } := rfl

/-- C10. Every event appended by `_add_event` carries the description
string in its `location` field — for a coordinate-tuple argument just as
for a string argument — so no event record ever holds the coordinates
that were passed in. -/
theorem add_event_location_is_description (s : SimState)
    (status : DutyStatus) (descr : String) (loc : LocArg) :
    (add_event s status descr loc).events =
      s.events ++
        [{ time := s.current_time, status := status, description := descr,
           location := descr,
           day := get_day_number s.current_time s.trip_start_time }] := by
  cases loc <;> rfl

/-- C6. Frame effects of the stop operations: a 30-minute break resets
`driving_hours` to 0, adds exactly 0.5 to `duty_hours` and `cycle_hours`,
and leaves `miles_driven` (and the clock advance is 0.5 h); a 10-hour rest
zeroes `duty_hours` and `driving_hours`, advances the clock by exactly its
10-hour duration and leaves `cycle_hours` and `miles_driven` unchanged;
and no other operation resets `duty_hours`: a fuel stop adds 0.5 to it and
`_add_event` leaves it unchanged. -/
theorem break_and_rest_frame_effects (s : SimState) (loc : ℚ × ℚ)
    (rest_type status : DutyStatus) (descr : String) (l : LocArg) :
    (take_break s loc).current_driving_hours = 0 ∧
    (take_break s loc).current_duty_hours = s.current_duty_hours + 1/2 ∧
    (take_break s loc).current_cycle_hours = s.current_cycle_hours + 1/2 ∧
    (take_break s loc).current_time = s.current_time + 1/2 ∧
    (take_break s loc).miles_driven = s.miles_driven ∧
    (take_rest s 10 rest_type loc).current_duty_hours = 0 ∧
    (take_rest s 10 rest_type loc).current_driving_hours = 0 ∧
    (take_rest s 10 rest_type loc).current_time = s.current_time + 10 ∧
    (take_rest s 10 rest_type loc).current_cycle_hours = s.current_cycle_hours ∧
    (take_rest s 10 rest_type loc).miles_driven = s.miles_driven ∧
    (add_fuel_stop s loc).current_duty_hours = s.current_duty_hours + 1/2 ∧
    (add_fuel_stop s loc).current_driving_hours = s.current_driving_hours ∧
    (add_fuel_stop s loc).miles_driven = s.miles_driven ∧
    (add_event s status descr l).current_duty_hours = s.current_duty_hours := by
  refine ⟨rfl, rfl, rfl, rfl, rfl, rfl, rfl, rfl, rfl, rfl, rfl, rfl, rfl, ?_⟩
  cases l <;> rfl

/-! ### C8: determinism and the wall clock -/

/-- Concrete arguments for the `start_time = None` counterexample: a
degenerate trip (both legs 0 miles) started with `start_time = None`. -/
def c8args (now : ℚ) : TripArgs :=
  { fuel := 1, current_location := (0, 0), pickup_location := (1, 1),
    dropoff_location := (2, 2), current_cycle_hours := 0,
    start_time := none, now := now, leg1 := ⟨0, 0, []⟩, leg2 := ⟨0, 0, []⟩ }

/-- C8 counterexample. With `start_time = None` and all inputs and route
responses identical, two runs read `datetime.now()`: run one day apart
they produce different reports (already the date of the daily log sheet
differs), so `simulate_trip` is not a function of the listed inputs alone
and the claimed run-to-run identity fails. -/
theorem simulate_trip_depends_on_wall_clock :
    (simulate_trip (c8args 0)).map
        (fun r => r.logs.map (fun l => l.date)) = some [0] ∧
    (simulate_trip (c8args 24)).map
        (fun r => r.logs.map (fun l => l.date)) = some [1] ∧
    (c8args 0).current_location = (c8args 24).current_location ∧
    (c8args 0).pickup_location = (c8args 24).pickup_location ∧
    (c8args 0).dropoff_location = (c8args 24).dropoff_location ∧
    (c8args 0).current_cycle_hours = (c8args 24).current_cycle_hours ∧
    (c8args 0).start_time = (c8args 24).start_time ∧
    (c8args 0).leg1 = (c8args 24).leg1 ∧
    (c8args 0).leg2 = (c8args 24).leg2 := by
  refine ⟨?_, ?_, rfl, rfl, rfl, rfl, rfl, rfl, rfl⟩ <;>
    norm_num [c8args, simulate_trip, simulate_trip_resolved, trip_call,
      trip_final, trip_after_leg2,
      trip_after_pickup, trip_after_leg1, trip_init_state, trip_midnight,
      trip_eff_start, trip_leg1_ctx, trip_leg2_ctx, simulate_leg, leg_loop,
      pickup_apply, dropoff_apply, build_report, add_event,
      generate_daily_logs, generate_daily_logs_raw, logsLoop, processEvent,
      ensureDay, hasDay, updateDay, creditDay, newDayLog, dateOf,
      get_day_number, mk_event]

/-- C8 amended. When `start_time` is provided, `simulate_trip` never
reads the wall clock: for identical inputs and identical route-provider
responses the two runs return identical reports whatever the wall clock
says (determinism holds except for the `start_time = None` case, where
the report additionally depends on the current date). -/
theorem simulate_trip_deterministic_with_start_time (a : TripArgs) (t : ℚ)
    (n₁ n₂ : ℚ) (h : a.start_time = some t) :
    simulate_trip { a with now := n₁ } = simulate_trip { a with now := n₂ } := by
  have h1 : trip_call { a with now := n₁ } = trip_call { a with now := n₂ } := by
    simp [trip_call, trip_eff_start, h]
  simp only [simulate_trip, h1]

/-- C8 witness for the amended theorem. -/
theorem simulate_trip_deterministic_with_start_time_witness :
    simulate_trip { c8args 0 with start_time := some 6, now := 5 } =
      simulate_trip { c8args 0 with start_time := some 6, now := 77 } :=
  simulate_trip_deterministic_with_start_time
    { c8args 0 with start_time := some 6 } 6 5 77 rfl

/-! ### Distance bookkeeping of the leg loop -/

theorem leg_checks_frame (c : LegCtx) (st : LegSt) :
    (leg_checks c st).remaining_distance = st.remaining_distance ∧
    (leg_checks c st).distance_covered_this_leg = st.distance_covered_this_leg ∧
    (leg_checks c st).last_fuel_miles = st.last_fuel_miles ∧
    (leg_checks c st).sim.miles_driven = st.sim.miles_driven := by
  unfold leg_checks leg_break_check leg_rest_check
  split_ifs <;> simp [take_rest_spec, take_break_spec]

theorem drive_segment_conservation (c : LegCtx) (st : LegSt) :
    (drive_segment c st).sim.miles_driven + (drive_segment c st).remaining_distance
      = st.sim.miles_driven + st.remaining_distance := by
  simp only [drive_segment]
  split_ifs <;>
    simp [add_fuel_stop_spec, apply_drive_spec] <;> ring

theorem leg_step_conservation (c : LegCtx) (st : LegSt) :
    (leg_step c st).sim.miles_driven + (leg_step c st).remaining_distance
      = st.sim.miles_driven + st.remaining_distance := by
  have h := drive_segment_conservation c (leg_checks c st)
  have h2 := leg_checks_frame c st
  simp only [leg_step]
  rw [h, h2.1, h2.2.2.2]

theorem drive_segment_remaining_nonneg (c : LegCtx) (st : LegSt)
    (h : 0 ≤ st.remaining_distance) :
    0 ≤ (drive_segment c st).remaining_distance := by
  have h1 : min (available_drive_time st.sim * 55) st.remaining_distance
      ≤ st.remaining_distance := min_le_right _ _
  simp only [drive_segment]
  split_ifs with hf
  · simp only
    linarith
  · simp only
    linarith

theorem leg_step_remaining_nonneg (c : LegCtx) (st : LegSt)
    (h : 0 ≤ st.remaining_distance) :
    0 ≤ (leg_step c st).remaining_distance := by
  have h2 := leg_checks_frame c st
  have := drive_segment_remaining_nonneg c (leg_checks c st) (h2.1 ▸ h)
  simpa [leg_step] using this

theorem leg_loop_exit (c : LegCtx) :
    ∀ (n : Nat) (st r : LegSt), leg_loop c n st = some r →
      r.sim.miles_driven + r.remaining_distance
          = st.sim.miles_driven + st.remaining_distance ∧
      r.remaining_distance ≤ 0 ∧
      (0 ≤ st.remaining_distance → r.remaining_distance = 0) := by
  intro n
  induction n with
  | zero =>
    intro st r h
    simp only [leg_loop] at h
    split_ifs at h with hr
    cases h
    exact ⟨rfl, hr, fun h0 => le_antisymm hr h0⟩
  | succ n ih =>
    intro st r h
    simp only [leg_loop] at h
    split_ifs at h with hr
    · cases h
      exact ⟨rfl, hr, fun h0 => le_antisymm hr h0⟩
    · obtain ⟨e1, e2, e3⟩ := ih (leg_step c st) r h
      refine ⟨?_, e2, ?_⟩
      · rw [e1, leg_step_conservation]
      · intro h0
        exact e3 (leg_step_remaining_nonneg c st h0)

/-- Core distance lemma: a completed leg loop ends with
`remaining_distance = 0` and has moved `miles_driven` forward by exactly
the initial remaining distance. -/
theorem leg_loop_miles (c : LegCtx) (n : Nat) (st r : LegSt)
    (h0 : 0 ≤ st.remaining_distance) (h : leg_loop c n st = some r) :
    r.remaining_distance = 0 ∧
    r.sim.miles_driven = st.sim.miles_driven + st.remaining_distance := by
  obtain ⟨e1, _, e3⟩ := leg_loop_exit c n st r h
  have hz := e3 h0
  refine ⟨hz, ?_⟩
  rw [hz] at e1
  linarith

theorem simulate_leg_miles (c : LegCtx) (fuel : Nat) (s s' : SimState)
    (hD : 0 ≤ c.distance) (h : simulate_leg c fuel s = some s') :
    s'.miles_driven = s.miles_driven + c.distance := by
  simp only [simulate_leg, Option.map_eq_some'] at h
  obtain ⟨r, hr, hs⟩ := h
  have := (leg_loop_miles c fuel _ r hD hr).2
  rw [← hs]
  simpa using this

/-! ### Cycle-hour bookkeeping -/

/-- The cycle-hours accounting potential: cycle hours minus the hours
attributable to driving, fuel stops and breaks. Every leg-loop operation
preserves it. -/
def acct (s : SimState) : ℚ :=
  s.current_cycle_hours - s.miles_driven / 55
    - ((s.fuel_stops.length : ℚ) + (s.break_stops.length : ℚ)) / 2

theorem leg_step_acct (c : LegCtx) (st : LegSt) :
    acct (leg_step c st).sim = acct st.sim := by
  simp only [leg_step, leg_checks, leg_break_check, leg_rest_check,
    drive_segment]
  split_ifs <;>
    simp [acct, take_rest_spec, take_break_spec, add_fuel_stop_spec,
      apply_drive_spec, List.length_append] <;> ring

theorem leg_loop_acct (c : LegCtx) :
    ∀ (n : Nat) (st r : LegSt), leg_loop c n st = some r →
      acct r.sim = acct st.sim := by
  intro n
  induction n with
  | zero =>
    intro st r h
    simp only [leg_loop] at h
    split_ifs at h
    cases h
    rfl
  | succ n ih =>
    intro st r h
    simp only [leg_loop] at h
    split_ifs at h
    · cases h; rfl
    · rw [ih (leg_step c st) r h, leg_step_acct]

theorem simulate_leg_acct (c : LegCtx) (fuel : Nat) (s s' : SimState)
    (h : simulate_leg c fuel s = some s') : acct s' = acct s := by
  simp only [simulate_leg, Option.map_eq_some'] at h
  obtain ⟨r, hr, hs⟩ := h
  rw [← hs]
  exact leg_loop_acct c fuel _ r hr

theorem trip_init_state_facts (a : TripCall) :
    (trip_init_state a).miles_driven = 0 ∧
    (trip_init_state a).current_cycle_hours = a.current_cycle_hours ∧
    (trip_init_state a).fuel_stops = [] ∧
    (trip_init_state a).break_stops = [] ∧
    (trip_init_state a).current_duty_hours = 0 ∧
    (trip_init_state a).current_driving_hours = 0 := by
  simp only [trip_init_state, add_event_spec]
  split_ifs <;> simp [acct]

theorem pickup_apply_facts (a : TripCall) (s : SimState) :
    acct (pickup_apply a s) = acct s + 1 ∧
    (pickup_apply a s).miles_driven = s.miles_driven := by
  constructor
  · simp [pickup_apply, add_event_spec, acct]
    ring
  · simp [pickup_apply, add_event_spec]

theorem dropoff_apply_facts (a : TripCall) (s : SimState) :
    acct (dropoff_apply a s) = acct s + 1 ∧
    (dropoff_apply a s).miles_driven = s.miles_driven ∧
    (dropoff_apply a s).current_cycle_hours = s.current_cycle_hours + 1 ∧
    (dropoff_apply a s).fuel_stops = s.fuel_stops ∧
    (dropoff_apply a s).break_stops = s.break_stops := by
  refine ⟨?_, ?_, ?_, ?_, ?_⟩ <;>
    simp [dropoff_apply, add_event_spec, acct] <;> ring

/-- C7. `current_cycle_hours` is subjected to no validation and flows
straight through the arithmetic: whenever `simulate_trip` returns a
report, `used_70hr_cycle` equals the input `current_cycle_hours` plus all
driving hours `(D₁ + D₂)/55`, the fixed pickup and dropoff hours `2`, and
half an hour per fuel stop and per break (rests and off-duty periods add
nothing), and `remaining_70hr_cycle` is exactly `70 − used_70hr_cycle`
with no clamping — so inputs ≥ 70 (or negative) are accepted and can make
the remaining figure negative. -/
theorem cycle_hours_flow_through (a : TripArgs) (r : TripReport)
    (hD1 : 0 ≤ a.leg1.distance_miles) (hD2 : 0 ≤ a.leg2.distance_miles)
    (h : simulate_trip a = some r) :
    r.hos_summary.used_70hr_cycle
      = a.current_cycle_hours
        + (a.leg1.distance_miles + a.leg2.distance_miles) / 55 + 2
        + (((r.stops.fuel_stops.length : ℚ) +
            (r.stops.break_stops.length : ℚ)) / 2) ∧
    r.hos_summary.remaining_70hr_cycle = 70 - r.hos_summary.used_70hr_cycle := by
  simp only [simulate_trip, simulate_trip_resolved, Option.map_eq_some'] at h
  obtain ⟨s, hfin, hr⟩ := h
  simp only [trip_final, Option.map_eq_some'] at hfin
  obtain ⟨s2, h2, hs⟩ := hfin
  simp only [trip_after_leg2, Option.bind_eq_some] at h2
  obtain ⟨s1p, h1p, hleg2⟩ := h2
  simp only [trip_after_pickup, Option.map_eq_some'] at h1p
  obtain ⟨s1, h1, hs1p⟩ := h1p
  simp only [trip_after_leg1] at h1
  have init := trip_init_state_facts (trip_call a)
  have m1 := simulate_leg_miles _ _ _ _ (show (0:ℚ) ≤ (trip_leg1_ctx (trip_call a)).distance from hD1) h1
  have a1 := simulate_leg_acct _ _ _ _ h1
  have m2 := simulate_leg_miles _ _ _ _ (show (0:ℚ) ≤ (trip_leg2_ctx (trip_call a)).distance from hD2) hleg2
  have a2 := simulate_leg_acct _ _ _ _ hleg2
  have pk := pickup_apply_facts (trip_call a) s1
  have dp := dropoff_apply_facts (trip_call a) s2
  subst hr hs hs1p
  have hd1 : (trip_leg1_ctx (trip_call a)).distance = a.leg1.distance_miles := rfl
  have hd2 : (trip_leg2_ctx (trip_call a)).distance = a.leg2.distance_miles := rfl
  have hacct0 : acct (trip_init_state (trip_call a)) =
      a.current_cycle_hours := by
    simp [acct, init.1, init.2.1, init.2.2.1, init.2.2.2.1,
      show (trip_call a).current_cycle_hours = a.current_cycle_hours from rfl]
  have hmiles : s2.miles_driven
      = a.leg1.distance_miles + a.leg2.distance_miles := by
    rw [m2, pk.2, m1, init.1, hd1, hd2]
    ring
  have hacct2 : acct s2 = a.current_cycle_hours + 1 := by
    rw [a2, pk.1, a1, hacct0]
  have hacctf : acct (dropoff_apply (trip_call a) s2)
      = a.current_cycle_hours + 2 := by
    rw [dp.1, hacct2]
    ring
  constructor
  · have : (dropoff_apply (trip_call a) s2).current_cycle_hours
        = a.current_cycle_hours + 2
          + (dropoff_apply (trip_call a) s2).miles_driven / 55
          + (((dropoff_apply (trip_call a) s2).fuel_stops.length : ℚ)
             + ((dropoff_apply (trip_call a) s2).break_stops.length : ℚ)) / 2 := by
      have := hacctf
      simp only [acct] at this
      linarith
    simp only [build_report]
    rw [this, dp.2.1, hmiles]
    simp [dp.2.2.2.1, dp.2.2.2.2]
    ring
  · simp [build_report]

/-- Concrete arguments for the C7 witness: `current_cycle_hours = 80`,
already over the 70-hour cap. -/
def c7args : TripArgs :=
  { fuel := 1, current_location := (0, 0), pickup_location := (1, 1),
    dropoff_location := (2, 2), current_cycle_hours := 80,
    start_time := some 6, now := 0, leg1 := ⟨0, 0, []⟩, leg2 := ⟨0, 0, []⟩ }

/-- C7 witness: `current_cycle_hours = 80` (already over the 70-hour cap)
is accepted; the degenerate trip yields `used = 82` and a negative
remaining figure. -/
theorem cycle_hours_flow_through_witness :
    ∃ r, simulate_trip c7args = some r ∧
      r.hos_summary.used_70hr_cycle
        = 80 + (0 + 0) / 55 + 2
          + (((r.stops.fuel_stops.length : ℚ) +
              (r.stops.break_stops.length : ℚ)) / 2) ∧
      r.hos_summary.remaining_70hr_cycle = 70 - r.hos_summary.used_70hr_cycle ∧
      r.hos_summary.remaining_70hr_cycle < 0 := by
  cases hh : simulate_trip c7args with
  | none =>
    refine absurd hh ?_
    have : simulate_trip c7args =
        some (build_report (trip_call c7args)
          (dropoff_apply (trip_call c7args)
            (pickup_apply (trip_call c7args)
              (trip_init_state (trip_call c7args))))) := by
      norm_num [c7args, simulate_trip, simulate_trip_resolved,
        trip_final, trip_after_leg2, trip_after_pickup, trip_after_leg1,
        trip_leg1_ctx, trip_leg2_ctx, trip_call, trip_eff_start,
        simulate_leg, leg_loop]
    rw [this]
    exact Option.some_ne_none _
  | some r =>
    obtain ⟨e1, e2⟩ := cycle_hours_flow_through _ r (le_refl 0) (le_refl 0) hh
    have n1 : (0:ℚ) ≤ (r.stops.fuel_stops.length : ℚ) := by positivity
    have n2 : (0:ℚ) ≤ (r.stops.break_stops.length : ℚ) := by positivity
    have e1' : r.hos_summary.used_70hr_cycle
        = 82 + (((r.stops.fuel_stops.length : ℚ) +
            (r.stops.break_stops.length : ℚ)) / 2) := by
      rw [e1]
      norm_num [c7args]
    refine ⟨r, rfl, e1, e2, ?_⟩
    rw [e2, e1']
    linarith

/-- C3. For every leg of nonnegative distance `D` that the loop budget
completes, `_simulate_leg` advances `miles_driven` by exactly `D` —
equivalently, the recorded per-iteration `drive_miles`/`drive_to_fuel`
amounts (exactly the increments of `miles_driven`) sum to `D` under exact
rational arithmetic, and the loop exits with `remaining_distance = 0`. -/
theorem leg_records_exactly_its_distance (c : LegCtx) (fuel : Nat)
    (s s' : SimState) (hD : 0 ≤ c.distance)
    (h : simulate_leg c fuel s = some s') :
    s'.miles_driven = s.miles_driven + c.distance :=
  simulate_leg_miles c fuel s s' hD h

/-- Concrete leg for the C3 witness: 600 miles from a fresh morning
state. -/
def c3ctx : LegCtx := ⟨600, "to_pickup", (0, 0), (1, 1)⟩

/-- Concrete start state for the C3 witness. -/
def c3state : SimState := ⟨6, 6, 0, 0, 0, 0, 1, [], [], [], []⟩

/-- C3 witness: the 600-mile leg completes in two iterations and moves
`miles_driven` from 0 to exactly 600. -/
theorem leg_records_exactly_its_distance_witness :
    ∃ s', simulate_leg c3ctx 2 c3state = some s' ∧
      s'.miles_driven = c3state.miles_driven + c3ctx.distance := by
  cases hh : simulate_leg c3ctx 2 c3state with
  | none =>
    have hs : (simulate_leg c3ctx 2 c3state).isSome = true := by
      norm_num [simulate_leg, leg_loop, leg_step, leg_checks,
        leg_break_check, leg_rest_check, drive_segment, apply_drive,
        available_drive_time, pymod, add_event, take_break, take_rest,
        c3ctx, c3state]
    rw [hh] at hs
    simp at hs
  | some s' =>
    exact ⟨s', rfl,
      leg_records_exactly_its_distance c3ctx 2 c3state s'
        (by norm_num [c3ctx]) hh⟩

/-! ### The loop invariant of `_simulate_leg` -/

/-- The state invariant maintained by the `_simulate_leg` loop (and
established by the orchestrator at leg entry): the 8-hour driving clock
sits in `[0, 8]`, duty hours exceed driving hours by a multiple of half
an hour (all non-driving duty accrues in 0.5 h and 1 h increments), and
the miles driven since the last fuel stop of this leg sit in
`[0, 1000)`. -/
structure LegInv (st : LegSt) : Prop where
  driving_nonneg : 0 ≤ st.sim.current_driving_hours
  driving_le : st.sim.current_driving_hours ≤ 8
  halfdiff : ∃ k : ℤ,
    st.sim.current_duty_hours - st.sim.current_driving_hours = k / 2
  msf_nonneg : 0 ≤ st.sim.miles_driven - st.last_fuel_miles
  msf_lt : st.sim.miles_driven - st.last_fuel_miles < 1000

theorem pymod_self (v : ℚ) (h0 : 0 ≤ v) (h8 : v < 8) : pymod v 8 = v := by
  unfold pymod
  have hz : ⌊v / 8⌋ = 0 := by
    rw [Int.floor_eq_zero_iff]
    exact ⟨by positivity, by rw [div_lt_one (by norm_num)]; linarith⟩
  rw [hz]
  ring

theorem available_drive_time_eq (s : SimState)
    (h0 : 0 ≤ s.current_driving_hours) (h8 : s.current_driving_hours < 8) :
    available_drive_time s
      = min (14 - s.current_duty_hours) (8 - s.current_driving_hours) := by
  unfold available_drive_time
  rw [pymod_self _ h0 h8]
  exact min_eq_right (le_trans (min_le_right _ _) (by linarith))

/-- State of the loop after the rest and break checks: driving hours lie
in `[0, 8)`, duty hours are at most 14 (and are untouched, below 14,
when neither check fires), the half-hour lattice relation and the
fuel-counter bounds survive, the loop-local distance variables are
untouched, and a firing rest check zeroes both clocks. -/
theorem leg_checks_post (c : LegCtx) (st : LegSt) (inv : LegInv st) :
    0 ≤ (leg_checks c st).sim.current_driving_hours ∧
    (leg_checks c st).sim.current_driving_hours < 8 ∧
    (leg_checks c st).sim.current_duty_hours ≤ 14 ∧
    (∃ k : ℤ, (leg_checks c st).sim.current_duty_hours
        - (leg_checks c st).sim.current_driving_hours = k / 2) ∧
    (leg_checks c st).sim.miles_driven - (leg_checks c st).last_fuel_miles
      = st.sim.miles_driven - st.last_fuel_miles ∧
    (leg_checks c st).remaining_distance = st.remaining_distance ∧
    (14 ≤ st.sim.current_duty_hours →
      (leg_checks c st).sim.current_duty_hours = 0) := by
  obtain ⟨k, hk⟩ := inv.halfdiff
  unfold leg_checks leg_break_check leg_rest_check
  split_ifs with h1 h2 h2
  · -- rest fired, then (spuriously split) break condition on the rested state
    exfalso
    simp [take_rest_spec] at h2
    linarith
  · -- rest fired, no break
    simp [take_rest_spec]
    exact ⟨0, by norm_num⟩
  · -- no rest, break fired: driving = 8 exactly, so duty = 8 + k/2 ≤ 13.5
    simp only [not_le] at h1
    simp only [take_break_spec] at h2 ⊢
    simp only [ge_iff_le] at h2
    have hdr : st.sim.current_driving_hours = 8 := le_antisymm inv.driving_le h2
    have hk2 : st.sim.current_duty_hours = 8 + (k : ℚ) / 2 := by
      rw [← hdr]; linarith
    have hkle : (k : ℚ) ≤ 11 := by
      by_contra hgt
      push_neg at hgt
      have : (11 : ℤ) < k := by exact_mod_cast hgt
      have : (12 : ℚ) ≤ (k : ℚ) := by exact_mod_cast this
      linarith
    refine ⟨by norm_num, by norm_num, by simp; linarith, ⟨k + 17, by push_cast; linarith⟩, by simp, by simp, ?_⟩
    intro h14
    linarith
  · -- neither check fired
    simp only [not_le] at h1 h2
    exact ⟨inv.driving_nonneg, h2, le_of_lt h1, ⟨k, hk⟩, rfl, rfl,
      fun h14 => absurd h14 (not_le.mpr h1)⟩

/-- Behaviour of the driving part of one loop iteration, from a state
that passed the checks: remaining distance never grows, the driving clock
stays in `[0, 8]`, the fuel counter stays in `[0, 1000)`, duty minus
driving grows by 0 or by the half hour of a fuel stop, an iteration that
makes no progress leaves duty exactly at 14, an iteration entered with
duty < 14 makes strictly positive progress, and the fuel-stop event (when
the fuel branch fires) is appended with duty at most 14. -/
theorem drive_segment_post (c : LegCtx) (st : LegSt)
    (hR : 0 < st.remaining_distance)
    (h0 : 0 ≤ st.sim.current_driving_hours)
    (h8 : st.sim.current_driving_hours < 8)
    (hu : st.sim.current_duty_hours ≤ 14)
    (hm0 : 0 ≤ st.sim.miles_driven - st.last_fuel_miles)
    (hm1 : st.sim.miles_driven - st.last_fuel_miles < 1000) :
    (drive_segment c st).remaining_distance ≤ st.remaining_distance ∧
    0 ≤ (drive_segment c st).sim.current_driving_hours ∧
    (drive_segment c st).sim.current_driving_hours ≤ 8 ∧
    0 ≤ (drive_segment c st).sim.miles_driven
        - (drive_segment c st).last_fuel_miles ∧
    (drive_segment c st).sim.miles_driven
        - (drive_segment c st).last_fuel_miles < 1000 ∧
    ((drive_segment c st).sim.current_duty_hours
        - (drive_segment c st).sim.current_driving_hours
        - (st.sim.current_duty_hours - st.sim.current_driving_hours) = 0 ∨
     (drive_segment c st).sim.current_duty_hours
        - (drive_segment c st).sim.current_driving_hours
        - (st.sim.current_duty_hours - st.sim.current_driving_hours) = 1/2) ∧
    ((drive_segment c st).remaining_distance = st.remaining_distance →
      (drive_segment c st).sim.current_duty_hours = 14) ∧
    (st.sim.current_duty_hours < 14 →
      (drive_segment c st).remaining_distance < st.remaining_distance) ∧
    ((st.sim.miles_driven - st.last_fuel_miles)
        + min (available_drive_time st.sim * 55) st.remaining_distance
          ≥ 1000 →
      (apply_drive c st.sim
        (1000 - (st.sim.miles_driven - st.last_fuel_miles))).current_duty_hours
          ≤ 14) := by
  have hadt : available_drive_time st.sim
      = min (14 - st.sim.current_duty_hours)
          (8 - st.sim.current_driving_hours) :=
    available_drive_time_eq _ h0 h8
  have hadt0 : 0 ≤ available_drive_time st.sim := by
    rw [hadt]
    exact le_min (by linarith) (by linarith)
  have hadt8 : available_drive_time st.sim
      ≤ 8 - st.sim.current_driving_hours := hadt ▸ min_le_right _ _
  have hadt14 : available_drive_time st.sim
      ≤ 14 - st.sim.current_duty_hours := hadt ▸ min_le_left _ _
  have hcan0 : 0 ≤ available_drive_time st.sim * 55 := by linarith
  have hminR : min (available_drive_time st.sim * 55) st.remaining_distance
      ≤ st.remaining_distance := min_le_right _ _
  have hminC : min (available_drive_time st.sim * 55) st.remaining_distance
      ≤ available_drive_time st.sim * 55 := min_le_left _ _
  have hmin0 : 0 ≤ min (available_drive_time st.sim * 55)
      st.remaining_distance := le_min hcan0 hR.le
  simp only [drive_segment]
  split_ifs with hf
  · -- fuel branch
    have hdtf0 : 0 < 1000 - (st.sim.miles_driven - st.last_fuel_miles) := by
      linarith
    have hdtfle : 1000 - (st.sim.miles_driven - st.last_fuel_miles)
        ≤ min (available_drive_time st.sim * 55) st.remaining_distance := by
      linarith
    simp only [add_fuel_stop_spec, apply_drive_spec]
    refine ⟨by linarith, by linarith, ?_, by linarith, by linarith,
      Or.inr (by ring), ?_, ?_, ?_⟩
    · have : 1000 - (st.sim.miles_driven - st.last_fuel_miles)
          ≤ available_drive_time st.sim * 55 := by linarith
      linarith
    · intro hz
      exfalso
      linarith
    · intro _
      linarith
    · intro _
      have : 1000 - (st.sim.miles_driven - st.last_fuel_miles)
          ≤ available_drive_time st.sim * 55 := by linarith
      linarith
  · -- normal branch
    push_neg at hf
    simp only [apply_drive_spec]
    refine ⟨by linarith, by linarith, ?_, by linarith, by linarith,
      Or.inl (by ring), ?_, ?_, ?_⟩
    · have : min (available_drive_time st.sim * 55) st.remaining_distance / 55
          ≤ available_drive_time st.sim := by linarith
      linarith
    · intro hz
      have hp0 : min (available_drive_time st.sim * 55)
          st.remaining_distance = 0 := by linarith
      rcases le_total (available_drive_time st.sim * 55)
          st.remaining_distance with hle | hle
      · have hcz : available_drive_time st.sim * 55 = 0 := by
          rw [min_eq_left hle] at hp0
          exact hp0
        have hadtz : available_drive_time st.sim = 0 := by linarith
        rw [hadt] at hadtz
        rcases le_total (14 - st.sim.current_duty_hours)
            (8 - st.sim.current_driving_hours) with hc | hc
        · rw [min_eq_left hc] at hadtz
          have : st.sim.current_duty_hours = 14 := by linarith
          rw [hp0]
          simpa using this
        · rw [min_eq_right hc] at hadtz
          exfalso
          linarith
      · exfalso
        rw [min_eq_right hle] at hp0
        linarith
    · intro hu14
      have hadtpos : 0 < available_drive_time st.sim := by
        rw [hadt]
        exact lt_min (by linarith) (by linarith)
      have : 0 < min (available_drive_time st.sim * 55)
          st.remaining_distance := lt_min (by linarith) hR
      linarith
    · intro hcon
      exact absurd hcon (not_le.mpr (by linarith))

/-- One full loop iteration preserves the invariant; remaining distance
never grows; a no-progress iteration leaves duty exactly at 14; an
iteration entered at or past the 14-hour duty cap (which rests first)
makes strictly positive progress. -/
theorem leg_step_post (c : LegCtx) (st : LegSt) (inv : LegInv st)
    (hR : 0 < st.remaining_distance) :
    LegInv (leg_step c st) ∧
    (leg_step c st).remaining_distance ≤ st.remaining_distance ∧
    ((leg_step c st).remaining_distance = st.remaining_distance →
      (leg_step c st).sim.current_duty_hours = 14) ∧
    (14 ≤ st.sim.current_duty_hours →
      (leg_step c st).remaining_distance < st.remaining_distance) := by
  obtain ⟨p0, p8, pu, ⟨k1, hk1⟩, pmsf, prem, prest⟩ := leg_checks_post c st inv
  have hR1 : 0 < (leg_checks c st).remaining_distance := by rw [prem]; exact hR
  have hm0 : 0 ≤ (leg_checks c st).sim.miles_driven
      - (leg_checks c st).last_fuel_miles := by
    rw [pmsf]; exact inv.msf_nonneg
  have hm1 : (leg_checks c st).sim.miles_driven
      - (leg_checks c st).last_fuel_miles < 1000 := by
    rw [pmsf]; exact inv.msf_lt
  obtain ⟨d1, d2, d3, d4, d5, d6, d7, d8, _⟩ :=
    drive_segment_post c (leg_checks c st) hR1 p0 p8 pu hm0 hm1
  simp only [leg_step]
  refine ⟨⟨d2, d3, ?_, d4, d5⟩, ?_, ?_, ?_⟩
  · rcases d6 with h | h
    · exact ⟨k1, by linarith⟩
    · exact ⟨k1 + 1, by push_cast; linarith⟩
  · rw [← prem]; exact d1
  · intro he
    exact d7 (by rw [prem]; exact he)
  · intro h14
    have := d8 (by rw [prest h14]; norm_num)
    rw [prem] at this
    exact this

theorem leg_loop_inv (c : LegCtx) :
    ∀ (n : Nat) (st r : LegSt), LegInv st → leg_loop c n st = some r →
      LegInv r := by
  intro n
  induction n with
  | zero =>
    intro st r inv h
    simp only [leg_loop] at h
    split_ifs at h
    cases h
    exact inv
  | succ n ih =>
    intro st r inv h
    simp only [leg_loop] at h
    split_ifs at h with hr
    · cases h
      exact inv
    · exact ih _ r ((leg_step_post c st inv (lt_of_not_le hr)).1) h

/-- C5. Under the loop invariant, `driving_hours` is strictly below 8 at
the start of every driving segment (i.e. after the rest/break checks): a
value that reached 8 has just been reset to 0 by the break (or by a
rest), and the `min`'s third term `8 - driving_hours % 8` caps the
segment so that driving ends at most at 8 — no single segment carries the
clock across the 8-hour boundary, and the invariant survives to the next
iteration. -/
theorem driving_clock_never_crosses_8 (c : LegCtx) (st : LegSt)
    (inv : LegInv st) (hR : 0 < st.remaining_distance) :
    0 ≤ (leg_checks c st).sim.current_driving_hours ∧
    (leg_checks c st).sim.current_driving_hours < 8 ∧
    (8 ≤ st.sim.current_driving_hours →
      (leg_checks c st).sim.current_driving_hours = 0) ∧
    (leg_step c st).sim.current_driving_hours ≤ 8 ∧
    LegInv (leg_step c st) := by
  obtain ⟨p0, p8, pu, hk, pmsf, prem, _⟩ := leg_checks_post c st inv
  obtain ⟨invs, _, _, _⟩ := leg_step_post c st inv hR
  refine ⟨p0, p8, ?_, invs.driving_le, invs⟩
  intro h8
  unfold leg_checks leg_break_check leg_rest_check
  split_ifs with h1 h2 h2 <;>
    first
      | simp [take_rest_spec, take_break_spec]
      | exact absurd h8 h2

/-- Concrete loop state for the C5 witness. -/
def c5st : LegSt := ⟨⟨6, 14, 9, 8, 3, 1200, 1, [], [], [], []⟩, 300, 200, 900⟩

/-- C5 witness: a mid-leg state with the driving clock exactly at 8 (and
duty at 9): the break check resets the clock, and the next segment stays
within the 8-hour boundary. -/
theorem driving_clock_never_crosses_8_witness :
    0 ≤ (leg_checks c3ctx c5st).sim.current_driving_hours ∧
    (leg_checks c3ctx c5st).sim.current_driving_hours < 8 ∧
    (8 ≤ c5st.sim.current_driving_hours →
      (leg_checks c3ctx c5st).sim.current_driving_hours = 0) ∧
    (leg_step c3ctx c5st).sim.current_driving_hours ≤ 8 ∧
    LegInv (leg_step c3ctx c5st) :=
  driving_clock_never_crosses_8 c3ctx c5st
    ⟨by norm_num [c5st], by norm_num [c5st], ⟨2, by norm_num [c5st]⟩,
      by norm_num [c5st], by norm_num [c5st]⟩
    (by norm_num [c5st])

/-! ### Fuel-stop counting -/

/-- The fuel-stop events of the stream: ON_DUTY status with the
`"Fuel Stop"` description (exactly what `_add_fuel_stop` appends). -/
def is_fuel_event (e : Event) : Bool :=
  e.description == "Fuel Stop" && e.status == DutyStatus.on_duty

/-- Number of ON_DUTY fuel-stop events in an event stream. -/
def countFuelEvents (es : List Event) : Nat :=
  (es.filter is_fuel_event).length

theorem countFuelEvents_append (es fs : List Event) :
    countFuelEvents (es ++ fs) = countFuelEvents es + countFuelEvents fs := by
  simp [countFuelEvents, List.filter_append]

theorem countFuelEvents_cons (e : Event) (es : List Event) :
    countFuelEvents (e :: es)
      = (if is_fuel_event e then 1 else 0) + countFuelEvents es := by
  simp only [countFuelEvents, List.filter_cons]
  split_ifs <;> simp <;> omega

theorem countFuelEvents_nil : countFuelEvents [] = 0 := rfl

theorem is_fuel_event_mk_fuel (s : SimState) :
    is_fuel_event (mk_event s .on_duty "Fuel Stop") = true := by
  simp [is_fuel_event, mk_event]

theorem is_fuel_event_of_ne (s : SimState) (status : DutyStatus)
    (descr : String) (h : descr ≠ "Fuel Stop") :
    is_fuel_event (mk_event s status descr) = false := by
  simp [is_fuel_event, mk_event]
  intro hd
  exact absurd hd h

theorem driving_descr_ne_fuel (lt : String) :
    ("Driving (" ++ lt ++ ")") ≠ "Fuel Stop" := by
  intro h
  have hlen := congrArg String.length h
  rw [String.length_append, String.length_append] at hlen
  have h1 : ("Driving (" : String).length = 9 := rfl
  have h2 : (")" : String).length = 1 := rfl
  have h3 : ("Fuel Stop" : String).length = 9 := rfl
  rw [h1, h2, h3] at hlen
  omega

/-- The fuel potential: `1000 · #fuel-stop-events + miles-since-fuel −
distance-covered-this-leg`. Every loop iteration preserves it: a fuel
stop fires exactly when the counter reaches the 1000-mile mark, resetting
it. -/
def fuel_acct (st : LegSt) : ℚ :=
  1000 * (countFuelEvents st.sim.events : ℚ)
    + (st.sim.miles_driven - st.last_fuel_miles)
    - st.distance_covered_this_leg

theorem leg_checks_fuel_acct (c : LegCtx) (st : LegSt) :
    fuel_acct (leg_checks c st) = fuel_acct st := by
  simp only [leg_checks, leg_break_check, leg_rest_check]
  split_ifs <;>
    simp [fuel_acct, take_rest_spec, take_break_spec, countFuelEvents_append,
      countFuelEvents_cons, countFuelEvents_nil, is_fuel_event, mk_event]

theorem drive_segment_fuel_acct (c : LegCtx) (st : LegSt) :
    fuel_acct (drive_segment c st) = fuel_acct st := by
  simp only [drive_segment]
  split_ifs <;>
    simp [fuel_acct, add_fuel_stop_spec, apply_drive_spec,
        countFuelEvents_append, countFuelEvents_cons, countFuelEvents_nil,
        is_fuel_event, mk_event] <;>
      push_cast <;> ring

theorem leg_step_fuel_acct (c : LegCtx) (st : LegSt) :
    fuel_acct (leg_step c st) = fuel_acct st := by
  rw [leg_step, drive_segment_fuel_acct, leg_checks_fuel_acct]

theorem leg_loop_fuel_acct (c : LegCtx) :
    ∀ (n : Nat) (st r : LegSt), leg_loop c n st = some r →
      fuel_acct r = fuel_acct st := by
  intro n
  induction n with
  | zero =>
    intro st r h
    simp only [leg_loop] at h
    split_ifs at h
    cases h
    rfl
  | succ n ih =>
    intro st r h
    simp only [leg_loop] at h
    split_ifs at h
    · cases h
      rfl
    · rw [ih _ r h, leg_step_fuel_acct]

theorem leg_step_covered (c : LegCtx) (st : LegSt) :
    (leg_step c st).distance_covered_this_leg
        + (leg_step c st).remaining_distance
      = st.distance_covered_this_leg + st.remaining_distance := by
  have h2 := leg_checks_frame c st
  simp only [leg_step]
  simp only [drive_segment]
  split_ifs <;>
    simp [add_fuel_stop_spec, apply_drive_spec, h2.1, h2.2.1] <;> ring

theorem leg_loop_covered (c : LegCtx) :
    ∀ (n : Nat) (st r : LegSt), leg_loop c n st = some r →
      r.distance_covered_this_leg + r.remaining_distance
        = st.distance_covered_this_leg + st.remaining_distance := by
  intro n
  induction n with
  | zero =>
    intro st r h
    simp only [leg_loop] at h
    split_ifs at h
    cases h
    rfl
  | succ n ih =>
    intro st r h
    simp only [leg_loop] at h
    split_ifs at h
    · cases h
      rfl
    · rw [ih _ r h, leg_step_covered]

/-- C1 amended. Within one leg, fuel stops follow the 1000-mile rule
exactly: starting from a leg entry (where the source resets
`last_fuel_miles` to the current odometer), a completed leg of length `D`
appends exactly `⌊D / 1000⌋` ON_DUTY fuel-stop events — one per full 1000
miles of driving since the previous fuel stop of the same leg, never
skipped and never duplicated. (The counter does not carry across the
leg1/leg2 boundary; see the counterexample.) -/
theorem per_leg_fuel_stop_count (c : LegCtx) (fuel : Nat) (s s' : SimState)
    (hd0 : 0 ≤ s.current_driving_hours) (hd8 : s.current_driving_hours ≤ 8)
    (hdk : ∃ k : ℤ, s.current_duty_hours - s.current_driving_hours = k / 2)
    (hD : 0 ≤ c.distance) (h : simulate_leg c fuel s = some s') :
    (countFuelEvents s'.events : ℤ)
      = countFuelEvents s.events + ⌊c.distance / 1000⌋ := by
  simp only [simulate_leg, Option.map_eq_some'] at h
  obtain ⟨r, hr, hs⟩ := h
  have inv0 : LegInv ⟨s, c.distance, 0, s.miles_driven⟩ :=
    ⟨hd0, hd8, hdk, by simp, by norm_num⟩
  have invr := leg_loop_inv c fuel _ r inv0 hr
  have hcov := leg_loop_covered c fuel _ r hr
  have hz := (leg_loop_miles c fuel _ r hD hr).1
  have hF := leg_loop_fuel_acct c fuel _ r hr
  simp only [fuel_acct] at hF
  simp only at hcov hz
  have hcovD : r.distance_covered_this_leg = c.distance := by
    rw [hz] at hcov
    linarith
  have hm0 := invr.msf_nonneg
  have hm1 := invr.msf_lt
  have hEq : 1000 * ((countFuelEvents r.sim.events : ℚ)
        - (countFuelEvents s.events : ℚ))
      = c.distance - (r.sim.miles_driven - r.last_fuel_miles) := by
    rw [hcovD] at hF
    have : (1000 : ℚ) * (countFuelEvents r.sim.events : ℚ)
        + (r.sim.miles_driven - r.last_fuel_miles) - c.distance
        = 1000 * (countFuelEvents s.events : ℚ) + (s.miles_driven - s.miles_driven) - 0 := hF
    linarith
  have hfloor : ⌊c.distance / 1000⌋
      = (countFuelEvents r.sim.events : ℤ) - (countFuelEvents s.events : ℤ) := by
    rw [Int.floor_eq_iff]
    constructor
    · rw [le_div_iff (by norm_num : (0:ℚ) < 1000)]
      push_cast
      linarith
    · rw [div_lt_iff (by norm_num : (0:ℚ) < 1000)]
      push_cast
      linarith
  rw [← hs, hfloor]
  ring

/-- Concrete leg for the C1 witness: 1100 miles from a fresh state,
crossing the 1000-mile mark once mid-leg. -/
def c1wctx : LegCtx := ⟨1100, "to_pickup", (0, 0), (1, 1)⟩

/-- C1 witness: the 1100-mile leg inserts exactly `⌊1100/1000⌋ = 1` fuel
stop. -/
theorem per_leg_fuel_stop_count_witness :
    ∃ s', simulate_leg c1wctx 4 c3state = some s' ∧
      (countFuelEvents s'.events : ℤ)
        = countFuelEvents c3state.events + ⌊c1wctx.distance / 1000⌋ := by
  cases hh : simulate_leg c1wctx 4 c3state with
  | none =>
    have hs : (simulate_leg c1wctx 4 c3state).isSome = true := by
      norm_num [simulate_leg, leg_loop, leg_step, leg_checks,
        leg_break_check, leg_rest_check, drive_segment, apply_drive,
        available_drive_time, pymod, add_event, take_break, take_rest,
        add_fuel_stop, c1wctx, c3state]
    rw [hh] at hs
    simp at hs
  | some s' =>
    exact ⟨s', rfl,
      per_leg_fuel_stop_count c1wctx 4 c3state s'
        (by norm_num [c3state]) (by norm_num [c3state])
        ⟨0, by norm_num [c3state]⟩ (by norm_num [c1wctx]) hh⟩

/-- Concrete arguments for the C1 counterexample: two 600-mile legs. -/
def c1args : TripArgs :=
  { fuel := 5, current_location := (0, 0), pickup_location := (0, 0),
    dropoff_location := (0, 0), current_cycle_hours := 0,
    start_time := some 6, now := 0,
    leg1 := ⟨600, 0, []⟩, leg2 := ⟨600, 0, []⟩ }

/-! ### C1 counterexample: the fuel counter resets at the leg boundary -/

theorem leg_loop_done (c : LegCtx) (n : Nat) (st : LegSt)
    (h : st.remaining_distance ≤ 0) : leg_loop c n st = some st := by
  cases n <;> simp [leg_loop, h]

theorem leg_loop_step_eq (c : LegCtx) (n : Nat) (st : LegSt)
    (h1 : ¬ st.remaining_distance ≤ 0) :
    leg_loop c (n + 1) st = leg_loop c n (leg_step c st) := by
  simp only [leg_loop, if_neg h1]

/-- Intermediate states of the 600 + 600 mile counterexample trip,
as computed by the simulator. -/
def c1S0 : SimState := { trip_start_time := 6, current_time := 6, current_duty_hours := 0, current_driving_hours := 0, current_cycle_hours := 0, miles_driven := 0, current_day := 1, events := [{ time := 0, status := DutyStatus.off_duty, description := "Off Duty (Pre-work)", location := "Off Duty (Pre-work)", day := 1 }, { time := 6, status := DutyStatus.on_duty, description := "Trip Start", location := "Trip Start", day := 1 }], fuel_stops := [], rest_stops := [], break_stops := [] }

def c1A1 : LegSt := { sim := { trip_start_time := 6, current_time := 14, current_duty_hours := 8, current_driving_hours := 8, current_cycle_hours := 8, miles_driven := 440, current_day := 1, events := [{ time := 0, status := DutyStatus.off_duty, description := "Off Duty (Pre-work)", location := "Off Duty (Pre-work)", day := 1 }, { time := 6, status := DutyStatus.on_duty, description := "Trip Start", location := "Trip Start", day := 1 }, { time := 6, status := DutyStatus.driving, description := "Driving (to_pickup)", location := "Driving (to_pickup)", day := 1 }], fuel_stops := [], rest_stops := [], break_stops := [] }, remaining_distance := 160, distance_covered_this_leg := 440, last_fuel_miles := 0 }

def c1A2 : LegSt := { sim := { trip_start_time := 6, current_time := (383 : Rat)/22, current_duty_hours := (251 : Rat)/22, current_driving_hours := (32 : Rat)/11, current_cycle_hours := (251 : Rat)/22, miles_driven := 600, current_day := 1, events := [{ time := 0, status := DutyStatus.off_duty, description := "Off Duty (Pre-work)", location := "Off Duty (Pre-work)", day := 1 }, { time := 6, status := DutyStatus.on_duty, description := "Trip Start", location := "Trip Start", day := 1 }, { time := 6, status := DutyStatus.driving, description := "Driving (to_pickup)", location := "Driving (to_pickup)", day := 1 }, { time := 14, status := DutyStatus.on_duty, description := "30-min Break", location := "30-min Break", day := 1 }, { time := (29 : Rat)/2, status := DutyStatus.driving, description := "Driving (to_pickup)", location := "Driving (to_pickup)", day := 1 }], fuel_stops := [], rest_stops := [], break_stops := [{ lat := 0, lng := 0, name := "30-Minute Break", time := (14, 0), duration := (1 : Rat)/2, stopType := "30-min break" }] }, remaining_distance := 0, distance_covered_this_leg := 600, last_fuel_miles := 0 }

def c1P : SimState := { trip_start_time := 6, current_time := (405 : Rat)/22, current_duty_hours := (273 : Rat)/22, current_driving_hours := (32 : Rat)/11, current_cycle_hours := (273 : Rat)/22, miles_driven := 600, current_day := 1, events := [{ time := 0, status := DutyStatus.off_duty, description := "Off Duty (Pre-work)", location := "Off Duty (Pre-work)", day := 1 }, { time := 6, status := DutyStatus.on_duty, description := "Trip Start", location := "Trip Start", day := 1 }, { time := 6, status := DutyStatus.driving, description := "Driving (to_pickup)", location := "Driving (to_pickup)", day := 1 }, { time := 14, status := DutyStatus.on_duty, description := "30-min Break", location := "30-min Break", day := 1 }, { time := (29 : Rat)/2, status := DutyStatus.driving, description := "Driving (to_pickup)", location := "Driving (to_pickup)", day := 1 }, { time := (383 : Rat)/22, status := DutyStatus.on_duty, description := "Pickup - Loading", location := "Pickup - Loading", day := 1 }], fuel_stops := [], rest_stops := [], break_stops := [{ lat := 0, lng := 0, name := "30-Minute Break", time := (14, 0), duration := (1 : Rat)/2, stopType := "30-min break" }] }

def c1B1 : LegSt := { sim := { trip_start_time := 6, current_time := 20, current_duty_hours := 14, current_driving_hours := (9 : Rat)/2, current_cycle_hours := 14, miles_driven := (1375 : Rat)/2, current_day := 1, events := [{ time := 0, status := DutyStatus.off_duty, description := "Off Duty (Pre-work)", location := "Off Duty (Pre-work)", day := 1 }, { time := 6, status := DutyStatus.on_duty, description := "Trip Start", location := "Trip Start", day := 1 }, { time := 6, status := DutyStatus.driving, description := "Driving (to_pickup)", location := "Driving (to_pickup)", day := 1 }, { time := 14, status := DutyStatus.on_duty, description := "30-min Break", location := "30-min Break", day := 1 }, { time := (29 : Rat)/2, status := DutyStatus.driving, description := "Driving (to_pickup)", location := "Driving (to_pickup)", day := 1 }, { time := (383 : Rat)/22, status := DutyStatus.on_duty, description := "Pickup - Loading", location := "Pickup - Loading", day := 1 }, { time := (405 : Rat)/22, status := DutyStatus.driving, description := "Driving (to_dropoff)", location := "Driving (to_dropoff)", day := 1 }], fuel_stops := [], rest_stops := [], break_stops := [{ lat := 0, lng := 0, name := "30-Minute Break", time := (14, 0), duration := (1 : Rat)/2, stopType := "30-min break" }] }, remaining_distance := (1025 : Rat)/2, distance_covered_this_leg := (175 : Rat)/2, last_fuel_miles := 600 }

def c1B2 : LegSt := { sim := { trip_start_time := 6, current_time := 38, current_duty_hours := 8, current_driving_hours := 8, current_cycle_hours := 22, miles_driven := (2255 : Rat)/2, current_day := 1, events := [{ time := 0, status := DutyStatus.off_duty, description := "Off Duty (Pre-work)", location := "Off Duty (Pre-work)", day := 1 }, { time := 6, status := DutyStatus.on_duty, description := "Trip Start", location := "Trip Start", day := 1 }, { time := 6, status := DutyStatus.driving, description := "Driving (to_pickup)", location := "Driving (to_pickup)", day := 1 }, { time := 14, status := DutyStatus.on_duty, description := "30-min Break", location := "30-min Break", day := 1 }, { time := (29 : Rat)/2, status := DutyStatus.driving, description := "Driving (to_pickup)", location := "Driving (to_pickup)", day := 1 }, { time := (383 : Rat)/22, status := DutyStatus.on_duty, description := "Pickup - Loading", location := "Pickup - Loading", day := 1 }, { time := (405 : Rat)/22, status := DutyStatus.driving, description := "Driving (to_dropoff)", location := "Driving (to_dropoff)", day := 1 }, { time := 20, status := DutyStatus.sleeper_berth, description := "10-hour Rest", location := "10-hour Rest", day := 1 }, { time := 30, status := DutyStatus.driving, description := "Driving (to_dropoff)", location := "Driving (to_dropoff)", day := 2 }], fuel_stops := [], rest_stops := [{ lat := 0, lng := 0, name := "10-Hour Rest", time := (20, 0), duration := 10, day := 1 }], break_stops := [{ lat := 0, lng := 0, name := "30-Minute Break", time := (14, 0), duration := (1 : Rat)/2, stopType := "30-min break" }] }, remaining_distance := (145 : Rat)/2, distance_covered_this_leg := (1055 : Rat)/2, last_fuel_miles := 600 }

def c1B3 : LegSt := { sim := { trip_start_time := 6, current_time := (438 : Rat)/11, current_duty_hours := (108 : Rat)/11, current_driving_hours := (29 : Rat)/22, current_cycle_hours := (262 : Rat)/11, miles_driven := 1200, current_day := 1, events := [{ time := 0, status := DutyStatus.off_duty, description := "Off Duty (Pre-work)", location := "Off Duty (Pre-work)", day := 1 }, { time := 6, status := DutyStatus.on_duty, description := "Trip Start", location := "Trip Start", day := 1 }, { time := 6, status := DutyStatus.driving, description := "Driving (to_pickup)", location := "Driving (to_pickup)", day := 1 }, { time := 14, status := DutyStatus.on_duty, description := "30-min Break", location := "30-min Break", day := 1 }, { time := (29 : Rat)/2, status := DutyStatus.driving, description := "Driving (to_pickup)", location := "Driving (to_pickup)", day := 1 }, { time := (383 : Rat)/22, status := DutyStatus.on_duty, description := "Pickup - Loading", location := "Pickup - Loading", day := 1 }, { time := (405 : Rat)/22, status := DutyStatus.driving, description := "Driving (to_dropoff)", location := "Driving (to_dropoff)", day := 1 }, { time := 20, status := DutyStatus.sleeper_berth, description := "10-hour Rest", location := "10-hour Rest", day := 1 }, { time := 30, status := DutyStatus.driving, description := "Driving (to_dropoff)", location := "Driving (to_dropoff)", day := 2 }, { time := 38, status := DutyStatus.on_duty, description := "30-min Break", location := "30-min Break", day := 2 }, { time := (77 : Rat)/2, status := DutyStatus.driving, description := "Driving (to_dropoff)", location := "Driving (to_dropoff)", day := 2 }], fuel_stops := [], rest_stops := [{ lat := 0, lng := 0, name := "10-Hour Rest", time := (20, 0), duration := 10, day := 1 }], break_stops := [{ lat := 0, lng := 0, name := "30-Minute Break", time := (14, 0), duration := (1 : Rat)/2, stopType := "30-min break" }, { lat := 0, lng := 0, name := "30-Minute Break", time := (14, 0), duration := (1 : Rat)/2, stopType := "30-min break" }] }, remaining_distance := 0, distance_covered_this_leg := 600, last_fuel_miles := 600 }

def c1F : SimState := { trip_start_time := 6, current_time := (449 : Rat)/11, current_duty_hours := (119 : Rat)/11, current_driving_hours := (29 : Rat)/22, current_cycle_hours := (273 : Rat)/11, miles_driven := 1200, current_day := 1, events := [{ time := 0, status := DutyStatus.off_duty, description := "Off Duty (Pre-work)", location := "Off Duty (Pre-work)", day := 1 }, { time := 6, status := DutyStatus.on_duty, description := "Trip Start", location := "Trip Start", day := 1 }, { time := 6, status := DutyStatus.driving, description := "Driving (to_pickup)", location := "Driving (to_pickup)", day := 1 }, { time := 14, status := DutyStatus.on_duty, description := "30-min Break", location := "30-min Break", day := 1 }, { time := (29 : Rat)/2, status := DutyStatus.driving, description := "Driving (to_pickup)", location := "Driving (to_pickup)", day := 1 }, { time := (383 : Rat)/22, status := DutyStatus.on_duty, description := "Pickup - Loading", location := "Pickup - Loading", day := 1 }, { time := (405 : Rat)/22, status := DutyStatus.driving, description := "Driving (to_dropoff)", location := "Driving (to_dropoff)", day := 1 }, { time := 20, status := DutyStatus.sleeper_berth, description := "10-hour Rest", location := "10-hour Rest", day := 1 }, { time := 30, status := DutyStatus.driving, description := "Driving (to_dropoff)", location := "Driving (to_dropoff)", day := 2 }, { time := 38, status := DutyStatus.on_duty, description := "30-min Break", location := "30-min Break", day := 2 }, { time := (77 : Rat)/2, status := DutyStatus.driving, description := "Driving (to_dropoff)", location := "Driving (to_dropoff)", day := 2 }, { time := (438 : Rat)/11, status := DutyStatus.on_duty, description := "Dropoff - Unloading", location := "Dropoff - Unloading", day := 2 }, { time := (449 : Rat)/11, status := DutyStatus.off_duty, description := "Trip Complete", location := "Trip Complete", day := 2 }], fuel_stops := [], rest_stops := [{ lat := 0, lng := 0, name := "10-Hour Rest", time := (20, 0), duration := 10, day := 1 }], break_stops := [{ lat := 0, lng := 0, name := "30-Minute Break", time := (14, 0), duration := (1 : Rat)/2, stopType := "30-min break" }, { lat := 0, lng := 0, name := "30-Minute Break", time := (14, 0), duration := (1 : Rat)/2, stopType := "30-min break" }] }
set_option maxHeartbeats 1600000 in
/-- C1 counterexample. `_simulate_leg` resets `last_fuel_miles` to the
current odometer at the start of every leg, so the 1000-mile fuel counter
does not carry across the leg1/leg2 boundary: on this 600 + 600 mile trip
the cumulative driving distance since the last fuel stop (there is none,
so since trip start) reaches 1200 ≥ 1000 — the claim requires
`⌊1200/1000⌋ = 1` fuel stop — yet the trip's event stream contains zero
ON_DUTY fuel stops: the stop whose 1000-mile boundary falls across the
leg boundary is skipped. -/
theorem fuel_stop_skipped_across_leg_boundary :
    trip_final (trip_call c1args) = some c1F ∧
    countFuelEvents c1F.events = 0 ∧
    c1F.miles_driven = 1200 ∧
    ⌊(1200 : ℚ) / 1000⌋ = 1 := by
  have hS0 : trip_init_state (trip_call c1args) = c1S0 := by
    norm_num [trip_init_state, trip_call, c1args, trip_eff_start,
      trip_midnight, add_event, dateOf, get_day_number, c1S0] <;> decide
  have hA1 : leg_step (trip_leg1_ctx (trip_call c1args))
      ⟨c1S0, 600, 0, 0⟩ = c1A1 := by
    norm_num [leg_step, leg_checks, leg_break_check, leg_rest_check,
      drive_segment, apply_drive, available_drive_time, pymod, add_event,
      take_break, take_rest, add_fuel_stop, interpolate_location,
      leg_progress, hmOf, get_day_number, dateOf, pyround0, roundHalfEven,
      mk_event, trip_leg1_ctx, trip_call, c1args, c1S0, c1A1] <;> decide
  have hA2 : leg_step (trip_leg1_ctx (trip_call c1args)) c1A1 = c1A2 := by
    norm_num [leg_step, leg_checks, leg_break_check, leg_rest_check,
      drive_segment, apply_drive, available_drive_time, pymod, add_event,
      take_break, take_rest, add_fuel_stop, interpolate_location,
      leg_progress, hmOf, get_day_number, dateOf, pyround0, roundHalfEven,
      mk_event, trip_leg1_ctx, trip_call, c1args, c1A1, c1A2] <;> decide
  have t1 : trip_after_leg1 (trip_call c1args) = some c1A2.sim := by
    rw [trip_after_leg1, hS0]
    show (leg_loop (trip_leg1_ctx (trip_call c1args)) 5
      ⟨c1S0, (trip_leg1_ctx (trip_call c1args)).distance, 0,
        c1S0.miles_driven⟩).map (fun st => st.sim) = some c1A2.sim
    have hd : (trip_leg1_ctx (trip_call c1args)).distance = 600 := rfl
    have hm : c1S0.miles_driven = 0 := rfl
    rw [hd, hm]
    have u : leg_loop (trip_leg1_ctx (trip_call c1args)) 5
        ⟨c1S0, 600, 0, 0⟩ = some c1A2 := by
      show leg_loop (trip_leg1_ctx (trip_call c1args)) (4 + 1)
        ⟨c1S0, 600, 0, 0⟩ = some c1A2
      rw [leg_loop_step_eq _ _ _ (by norm_num), hA1]
      show leg_loop (trip_leg1_ctx (trip_call c1args)) (3 + 1) c1A1
        = some c1A2
      rw [leg_loop_step_eq _ _ _ (by norm_num [c1A1]), hA2]
      exact leg_loop_done _ 3 _ (by norm_num [c1A2])
    rw [u, Option.map_some']
  have hP : pickup_apply (trip_call c1args) c1A2.sim = c1P := by
    norm_num [pickup_apply, add_event, get_day_number, dateOf, mk_event,
      trip_call, c1args, c1A2, c1P] <;> decide
  have t2 : trip_after_pickup (trip_call c1args) = some c1P := by
    rw [trip_after_pickup, t1, Option.map_some', hP]
  have hB1 : leg_step (trip_leg2_ctx (trip_call c1args))
      ⟨c1P, 600, 0, 600⟩ = c1B1 := by
    norm_num [leg_step, leg_checks, leg_break_check, leg_rest_check,
      drive_segment, apply_drive, available_drive_time, pymod, add_event,
      take_break, take_rest, add_fuel_stop, interpolate_location,
      leg_progress, hmOf, get_day_number, dateOf, pyround0, roundHalfEven,
      mk_event, trip_leg2_ctx, trip_call, c1args, c1P, c1B1] <;> decide
  have hB2 : leg_step (trip_leg2_ctx (trip_call c1args)) c1B1 = c1B2 := by
    norm_num [leg_step, leg_checks, leg_break_check, leg_rest_check,
      drive_segment, apply_drive, available_drive_time, pymod, add_event,
      take_break, take_rest, add_fuel_stop, interpolate_location,
      leg_progress, hmOf, get_day_number, dateOf, pyround0, roundHalfEven,
      mk_event, trip_leg2_ctx, trip_call, c1args, c1B1, c1B2] <;> decide
  have hB3 : leg_step (trip_leg2_ctx (trip_call c1args)) c1B2 = c1B3 := by
    norm_num [leg_step, leg_checks, leg_break_check, leg_rest_check,
      drive_segment, apply_drive, available_drive_time, pymod, add_event,
      take_break, take_rest, add_fuel_stop, interpolate_location,
      leg_progress, hmOf, get_day_number, dateOf, pyround0, roundHalfEven,
      mk_event, trip_leg2_ctx, trip_call, c1args, c1B2, c1B3] <;> decide
  have t3 : trip_after_leg2 (trip_call c1args) = some c1B3.sim := by
    rw [trip_after_leg2, t2]
    show simulate_leg (trip_leg2_ctx (trip_call c1args))
      (trip_call c1args).fuel c1P = some c1B3.sim
    show (leg_loop (trip_leg2_ctx (trip_call c1args)) 5
      ⟨c1P, (trip_leg2_ctx (trip_call c1args)).distance, 0,
        c1P.miles_driven⟩).map (fun st => st.sim) = some c1B3.sim
    have hd : (trip_leg2_ctx (trip_call c1args)).distance = 600 := rfl
    have hm : c1P.miles_driven = 600 := rfl
    rw [hd, hm]
    have u : leg_loop (trip_leg2_ctx (trip_call c1args)) 5
        ⟨c1P, 600, 0, 600⟩ = some c1B3 := by
      show leg_loop (trip_leg2_ctx (trip_call c1args)) (4 + 1)
        ⟨c1P, 600, 0, 600⟩ = some c1B3
      rw [leg_loop_step_eq _ _ _ (by norm_num), hB1]
      show leg_loop (trip_leg2_ctx (trip_call c1args)) (3 + 1) c1B1
        = some c1B3
      rw [leg_loop_step_eq _ _ _ (by norm_num [c1B1]), hB2]
      show leg_loop (trip_leg2_ctx (trip_call c1args)) (2 + 1) c1B2
        = some c1B3
      rw [leg_loop_step_eq _ _ _ (by norm_num [c1B2]), hB3]
      exact leg_loop_done _ 2 _ (by norm_num [c1B3])
    rw [u, Option.map_some']
  have hF : dropoff_apply (trip_call c1args) c1B3.sim = c1F := by
    norm_num [dropoff_apply, add_event, get_day_number, dateOf, mk_event,
      trip_call, c1args, c1B3, c1F] <;> decide
  refine ⟨?_, ?_, ?_, ?_⟩
  · rw [trip_final, t3, Option.map_some', hF]
  · decide
  · norm_num [c1F]
  · norm_num

theorem drive_segment_events_extend (c : LegCtx) (st : LegSt) :
    ∃ tl, (drive_segment c st).sim.events = st.sim.events ++ tl := by
  simp only [drive_segment]
  split_ifs
  · refine ⟨[mk_event st.sim .driving ("Driving (" ++ c.leg_type ++ ")"),
      mk_event (apply_drive c st.sim
        (1000 - (st.sim.miles_driven - st.last_fuel_miles))) .on_duty
        "Fuel Stop"], ?_⟩
    simp only [add_fuel_stop_spec, apply_drive_spec]
    rw [List.append_assoc]
    rfl
  · refine ⟨[mk_event st.sim .driving ("Driving (" ++ c.leg_type ++ ")")], ?_⟩
    simp only [apply_drive_spec]

/-- C2 amended. Inside the `_simulate_leg` loop, the 14-hour duty window
is respected: duty is strictly below 14 when a break starts, at most 14
when a driving segment starts, at most 14 when a fuel stop's event is
appended, and whenever duty is at least 14 at the top of an iteration the
very next event appended to the stream is the 10-hour SLEEPER_BERTH rest.
(The pickup and dropoff activities are appended by the orchestrator with
no such check — see the counterexample, where a leg ends at exactly
duty 14, pickup rather than a rest follows, and dropoff begins at
duty 15.) -/
theorem duty_window_respected_within_leg (c : LegCtx) (st : LegSt)
    (inv : LegInv st) (hR : 0 < st.remaining_distance) :
    (leg_rest_check c st).sim.current_duty_hours < 14 ∧
    (leg_checks c st).sim.current_duty_hours ≤ 14 ∧
    (((leg_checks c st).sim.miles_driven - (leg_checks c st).last_fuel_miles)
        + min (available_drive_time (leg_checks c st).sim * 55)
            (leg_checks c st).remaining_distance ≥ 1000 →
      (apply_drive c (leg_checks c st).sim
        (1000 - ((leg_checks c st).sim.miles_driven
          - (leg_checks c st).last_fuel_miles))).current_duty_hours ≤ 14) ∧
    (14 ≤ st.sim.current_duty_hours →
      ((leg_step c st).sim.events[st.sim.events.length]?).map
          (fun e => (e.status, e.description))
        = some (DutyStatus.sleeper_berth, "10-hour Rest")) := by
  obtain ⟨p0, p8, pu, hk, pmsf, prem, _⟩ := leg_checks_post c st inv
  have hR1 : 0 < (leg_checks c st).remaining_distance := by rw [prem]; exact hR
  have hm0 : 0 ≤ (leg_checks c st).sim.miles_driven
      - (leg_checks c st).last_fuel_miles := by
    rw [pmsf]; exact inv.msf_nonneg
  have hm1 : (leg_checks c st).sim.miles_driven
      - (leg_checks c st).last_fuel_miles < 1000 := by
    rw [pmsf]; exact inv.msf_lt
  obtain ⟨_, _, _, _, _, _, _, _, dfu⟩ :=
    drive_segment_post c (leg_checks c st) hR1 p0 p8 pu hm0 hm1
  refine ⟨?_, pu, dfu, ?_⟩
  · unfold leg_rest_check
    split_ifs with h1
    · simp [take_rest_spec]
    · exact lt_of_not_le h1
  · intro h14
    have hev1 : (leg_checks c st).sim.events
        = st.sim.events ++ [mk_event st.sim .sleeper_berth "10-hour Rest"] := by
      unfold leg_checks leg_break_check leg_rest_check
      split_ifs with h1 h2
      · exfalso
        norm_num [take_rest_spec] at h2
      · simp [take_rest_spec]
      · exact absurd h14 h1
      · exact absurd h14 h1
    obtain ⟨tl, htl⟩ := drive_segment_events_extend c (leg_checks c st)
    have : (leg_step c st).sim.events
        = st.sim.events
          ++ ([mk_event st.sim .sleeper_berth "10-hour Rest"] ++ tl) := by
      simp only [leg_step]
      rw [htl, hev1, List.append_assoc]
    rw [this, List.getElem?_append_right (le_refl _)]
    simp [mk_event]

/-- Concrete arguments for the C2 counterexample: a 742.5-mile first leg
(which ends with duty exactly 14) and a zero-distance second leg. -/
def c2args : TripArgs :=
  { fuel := 5, current_location := (0, 0), pickup_location := (0, 0),
    dropoff_location := (0, 0), current_cycle_hours := 0,
    start_time := some 6, now := 0,
    leg1 := ⟨742.5, 0, []⟩, leg2 := ⟨0, 0, []⟩ }

def c2S0 : SimState := { trip_start_time := 6, current_time := 6, current_duty_hours := 0, current_driving_hours := 0, current_cycle_hours := 0, miles_driven := 0, current_day := 1, events := [{ time := 0, status := DutyStatus.off_duty, description := "Off Duty (Pre-work)", location := "Off Duty (Pre-work)", day := 1 }, { time := 6, status := DutyStatus.on_duty, description := "Trip Start", location := "Trip Start", day := 1 }], fuel_stops := [], rest_stops := [], break_stops := [] }

def c2A1 : LegSt := { sim := { trip_start_time := 6, current_time := 14, current_duty_hours := 8, current_driving_hours := 8, current_cycle_hours := 8, miles_driven := 440, current_day := 1, events := [{ time := 0, status := DutyStatus.off_duty, description := "Off Duty (Pre-work)", location := "Off Duty (Pre-work)", day := 1 }, { time := 6, status := DutyStatus.on_duty, description := "Trip Start", location := "Trip Start", day := 1 }, { time := 6, status := DutyStatus.driving, description := "Driving (to_pickup)", location := "Driving (to_pickup)", day := 1 }], fuel_stops := [], rest_stops := [], break_stops := [] }, remaining_distance := (605 : Rat)/2, distance_covered_this_leg := 440, last_fuel_miles := 0 }

def c2A2 : LegSt := { sim := { trip_start_time := 6, current_time := 20, current_duty_hours := 14, current_driving_hours := (11 : Rat)/2, current_cycle_hours := 14, miles_driven := (1485 : Rat)/2, current_day := 1, events := [{ time := 0, status := DutyStatus.off_duty, description := "Off Duty (Pre-work)", location := "Off Duty (Pre-work)", day := 1 }, { time := 6, status := DutyStatus.on_duty, description := "Trip Start", location := "Trip Start", day := 1 }, { time := 6, status := DutyStatus.driving, description := "Driving (to_pickup)", location := "Driving (to_pickup)", day := 1 }, { time := 14, status := DutyStatus.on_duty, description := "30-min Break", location := "30-min Break", day := 1 }, { time := (29 : Rat)/2, status := DutyStatus.driving, description := "Driving (to_pickup)", location := "Driving (to_pickup)", day := 1 }], fuel_stops := [], rest_stops := [], break_stops := [{ lat := 0, lng := 0, name := "30-Minute Break", time := (14, 0), duration := (1 : Rat)/2, stopType := "30-min break" }] }, remaining_distance := 0, distance_covered_this_leg := (1485 : Rat)/2, last_fuel_miles := 0 }

def c2P : SimState := { trip_start_time := 6, current_time := 21, current_duty_hours := 15, current_driving_hours := (11 : Rat)/2, current_cycle_hours := 15, miles_driven := (1485 : Rat)/2, current_day := 1, events := [{ time := 0, status := DutyStatus.off_duty, description := "Off Duty (Pre-work)", location := "Off Duty (Pre-work)", day := 1 }, { time := 6, status := DutyStatus.on_duty, description := "Trip Start", location := "Trip Start", day := 1 }, { time := 6, status := DutyStatus.driving, description := "Driving (to_pickup)", location := "Driving (to_pickup)", day := 1 }, { time := 14, status := DutyStatus.on_duty, description := "30-min Break", location := "30-min Break", day := 1 }, { time := (29 : Rat)/2, status := DutyStatus.driving, description := "Driving (to_pickup)", location := "Driving (to_pickup)", day := 1 }, { time := 20, status := DutyStatus.on_duty, description := "Pickup - Loading", location := "Pickup - Loading", day := 1 }], fuel_stops := [], rest_stops := [], break_stops := [{ lat := 0, lng := 0, name := "30-Minute Break", time := (14, 0), duration := (1 : Rat)/2, stopType := "30-min break" }] }

set_option maxHeartbeats 1600000 in
/-- C2 counterexample. The first leg of this trip ends with `duty_hours`
exactly 14, yet the very next event appended to the log is the ON_DUTY
"Pickup - Loading" event, not a sleeper-berth rest (the rest check lives
only inside the leg loop); the pickup raises duty to 15, the zero-distance
second leg performs no iteration, and the dropoff activity then begins
with `duty_hours = 15 > 14` — falsifying both halves of the claim. -/
theorem duty_window_cap_violated_at_pickup_and_dropoff :
    trip_after_leg1 (trip_call c2args) = some c2A2.sim ∧
    c2A2.sim.current_duty_hours = 14 ∧
    trip_after_pickup (trip_call c2args)
      = some (pickup_apply (trip_call c2args) c2A2.sim) ∧
    (pickup_apply (trip_call c2args) c2A2.sim).events
      = c2A2.sim.events ++ [mk_event c2A2.sim .on_duty "Pickup - Loading"] ∧
    (mk_event c2A2.sim .on_duty "Pickup - Loading").status
      ≠ DutyStatus.sleeper_berth ∧
    trip_after_leg2 (trip_call c2args)
      = some (pickup_apply (trip_call c2args) c2A2.sim) ∧
    (pickup_apply (trip_call c2args) c2A2.sim).current_duty_hours = 15 ∧
    trip_final (trip_call c2args)
      = some (dropoff_apply (trip_call c2args)
          (pickup_apply (trip_call c2args) c2A2.sim)) ∧
    (dropoff_apply (trip_call c2args)
        (pickup_apply (trip_call c2args) c2A2.sim)).events
      = (pickup_apply (trip_call c2args) c2A2.sim).events
        ++ [mk_event (pickup_apply (trip_call c2args) c2A2.sim)
              .on_duty "Dropoff - Unloading"]
        ++ [mk_event { pickup_apply (trip_call c2args) c2A2.sim with
              current_time :=
                (pickup_apply (trip_call c2args) c2A2.sim).current_time + 1,
              current_duty_hours := 15 + 1,
              current_cycle_hours :=
                (pickup_apply (trip_call c2args) c2A2.sim).current_cycle_hours
                  + 1,
              events :=
                (pickup_apply (trip_call c2args) c2A2.sim).events
                  ++ [mk_event (pickup_apply (trip_call c2args) c2A2.sim)
                        .on_duty "Dropoff - Unloading"] }
              .off_duty "Trip Complete"] := by
  have hS0 : trip_init_state (trip_call c2args) = c2S0 := by
    norm_num [trip_init_state, trip_call, c2args, trip_eff_start,
      trip_midnight, add_event, dateOf, get_day_number, c2S0] <;> decide
  have hA1 : leg_step (trip_leg1_ctx (trip_call c2args))
      ⟨c2S0, 742.5, 0, 0⟩ = c2A1 := by
    norm_num [leg_step, leg_checks, leg_break_check, leg_rest_check,
      drive_segment, apply_drive, available_drive_time, pymod, add_event,
      take_break, take_rest, add_fuel_stop, interpolate_location,
      leg_progress, hmOf, get_day_number, dateOf, pyround0, roundHalfEven,
      mk_event, trip_leg1_ctx, trip_call, c2args, c2S0, c2A1] <;> decide
  have hA2 : leg_step (trip_leg1_ctx (trip_call c2args)) c2A1 = c2A2 := by
    norm_num [leg_step, leg_checks, leg_break_check, leg_rest_check,
      drive_segment, apply_drive, available_drive_time, pymod, add_event,
      take_break, take_rest, add_fuel_stop, interpolate_location,
      leg_progress, hmOf, get_day_number, dateOf, pyround0, roundHalfEven,
      mk_event, trip_leg1_ctx, trip_call, c2args, c2A1, c2A2] <;> decide
  have t1 : trip_after_leg1 (trip_call c2args) = some c2A2.sim := by
    rw [trip_after_leg1, hS0]
    show (leg_loop (trip_leg1_ctx (trip_call c2args)) 5
      ⟨c2S0, (trip_leg1_ctx (trip_call c2args)).distance, 0,
        c2S0.miles_driven⟩).map (fun st => st.sim) = some c2A2.sim
    have hd : (trip_leg1_ctx (trip_call c2args)).distance = 742.5 := by
      norm_num [trip_leg1_ctx, trip_call, c2args]
    have hm : c2S0.miles_driven = 0 := rfl
    rw [hd, hm]
    have u : leg_loop (trip_leg1_ctx (trip_call c2args)) 5
        ⟨c2S0, 742.5, 0, 0⟩ = some c2A2 := by
      show leg_loop (trip_leg1_ctx (trip_call c2args)) (4 + 1)
        ⟨c2S0, 742.5, 0, 0⟩ = some c2A2
      rw [leg_loop_step_eq _ _ _ (by norm_num), hA1]
      show leg_loop (trip_leg1_ctx (trip_call c2args)) (3 + 1) c2A1
        = some c2A2
      rw [leg_loop_step_eq _ _ _ (by norm_num [c2A1]), hA2]
      exact leg_loop_done _ 3 _ (by norm_num [c2A2])
    rw [u, Option.map_some']
  have t2 : trip_after_pickup (trip_call c2args)
      = some (pickup_apply (trip_call c2args) c2A2.sim) := by
    rw [trip_after_pickup, t1, Option.map_some']
  have t3 : trip_after_leg2 (trip_call c2args)
      = some (pickup_apply (trip_call c2args) c2A2.sim) := by
    rw [trip_after_leg2, t2]
    show simulate_leg (trip_leg2_ctx (trip_call c2args))
      (trip_call c2args).fuel (pickup_apply (trip_call c2args) c2A2.sim)
      = some (pickup_apply (trip_call c2args) c2A2.sim)
    simp only [simulate_leg]
    rw [leg_loop_done _ _ _ (by norm_num [trip_leg2_ctx, trip_call, c2args]),
      Option.map_some']
  refine ⟨t1, by norm_num [c2A2], t2, ?_, by decide, t3, ?_, ?_, ?_⟩
  · simp [pickup_apply, add_event_spec]
  · norm_num [pickup_apply, add_event_spec, c2A2]
  · rw [trip_final, t3, Option.map_some']
  · simp only [dropoff_apply, add_event_spec, pickup_apply]
    rfl

/-- Concrete mid-leg state for the C2 witness: duty already at 14.5. -/
def c2wst : LegSt := ⟨⟨6, 20, 29/2, 3, 5, 700, 1, [], [], [], []⟩, 250, 450, 100⟩

/-- C2 witness for the amended theorem: from a state past the duty cap,
the very next appended event is the sleeper-berth rest. -/
theorem duty_window_respected_within_leg_witness :
    (leg_rest_check c3ctx c2wst).sim.current_duty_hours < 14 ∧
    (leg_checks c3ctx c2wst).sim.current_duty_hours ≤ 14 ∧
    (((leg_checks c3ctx c2wst).sim.miles_driven
        - (leg_checks c3ctx c2wst).last_fuel_miles)
        + min (available_drive_time (leg_checks c3ctx c2wst).sim * 55)
            (leg_checks c3ctx c2wst).remaining_distance ≥ 1000 →
      (apply_drive c3ctx (leg_checks c3ctx c2wst).sim
        (1000 - ((leg_checks c3ctx c2wst).sim.miles_driven
          - (leg_checks c3ctx c2wst).last_fuel_miles))).current_duty_hours
          ≤ 14) ∧
    (14 ≤ c2wst.sim.current_duty_hours →
      ((leg_step c3ctx c2wst).sim.events[c2wst.sim.events.length]?).map
          (fun e => (e.status, e.description))
        = some (DutyStatus.sleeper_berth, "10-hour Rest")) :=
  duty_window_respected_within_leg c3ctx c2wst
    ⟨by norm_num [c2wst], by norm_num [c2wst], ⟨23, by norm_num [c2wst]⟩,
      by norm_num [c2wst], by norm_num [c2wst]⟩
    (by norm_num [c2wst])

/-! ### Termination of the leg loop

All hour quantities the loop manipulates live on a fixed rational
lattice `ε · ℤ` (and all mile quantities on `55ε · ℤ`): the HOS constants
are halves, driving times are miles divided by 55, and fuel truncations
subtract from the 1000-mile mark. A positive lattice element is at least
`ε`, so each iteration's progress is either zero (and then duty has hit
exactly 14, forcing a rest — and real progress — in the next iteration)
or at least `55ε` miles. -/

/-- Membership in the lattice `u · ℤ`. -/
def OnGrid (u x : ℚ) : Prop := ∃ a : ℤ, x = a * u

theorem OnGrid.zero (u : ℚ) : OnGrid u 0 := ⟨0, by norm_num⟩

theorem OnGrid.add {u x y : ℚ} (hx : OnGrid u x) (hy : OnGrid u y) :
    OnGrid u (x + y) := by
  obtain ⟨a, ha⟩ := hx
  obtain ⟨b, hb⟩ := hy
  exact ⟨a + b, by push_cast; rw [ha, hb]; ring⟩

theorem OnGrid.neg {u x : ℚ} (hx : OnGrid u x) : OnGrid u (-x) := by
  obtain ⟨a, ha⟩ := hx
  exact ⟨-a, by push_cast; rw [ha]; ring⟩

theorem OnGrid.sub {u x y : ℚ} (hx : OnGrid u x) (hy : OnGrid u y) :
    OnGrid u (x - y) := by
  have := hx.add hy.neg
  simpa [sub_eq_add_neg] using this

theorem OnGrid.min {u x y : ℚ} (hx : OnGrid u x) (hy : OnGrid u y) :
    OnGrid u (min x y) := by
  rcases le_total x y with h | h
  · rwa [min_eq_left h]
  · rwa [min_eq_right h]

theorem OnGrid.int_mul {u x : ℚ} (n : ℤ) (hx : OnGrid u x) :
    OnGrid u ((n : ℚ) * x) := by
  obtain ⟨a, ha⟩ := hx
  exact ⟨n * a, by push_cast; rw [ha]; ring⟩

theorem OnGrid.of_half {ε : ℚ} (n : ℤ) (h : OnGrid ε (1/2)) :
    OnGrid ε ((n : ℚ) / 2) := by
  have := OnGrid.int_mul n h
  simpa [div_eq_mul_inv, mul_comm, mul_assoc] using this

theorem OnGrid.div55 {ε x : ℚ} (h : OnGrid (55 * ε) x) : OnGrid ε (x / 55) := by
  obtain ⟨a, ha⟩ := h
  exact ⟨a, by rw [ha]; ring⟩

theorem OnGrid.mul55 {ε x : ℚ} (h : OnGrid ε x) : OnGrid (55 * ε) (x * 55) := by
  obtain ⟨a, ha⟩ := h
  exact ⟨a, by rw [ha]; ring⟩

theorem OnGrid.ge_of_pos {u x : ℚ} (hu : 0 < u) (hx : OnGrid u x) (hpos : 0 < x) :
    u ≤ x := by
  obtain ⟨a, ha⟩ := hx
  have ha1 : (1 : ℤ) ≤ a := by
    by_contra hlt
    push_neg at hlt
    have : a ≤ 0 := by omega
    have : (a : ℚ) ≤ 0 := by exact_mod_cast this
    nlinarith
  have : (1 : ℚ) ≤ (a : ℚ) := by exact_mod_cast ha1
  nlinarith

theorem OnGrid.pymod8 {ε v : ℚ} (hv : OnGrid ε v) (h8 : OnGrid ε 8) :
    OnGrid ε (pymod v 8) := by
  unfold pymod
  exact hv.sub (by simpa [mul_comm] using OnGrid.int_mul ⌊v / 8⌋ h8)

/-- The lattice invariant for the leg loop: a positive grid unit `ε`
that divides half an hour (hence every HOS hour constant), whose mile
counterpart `55ε` divides the 1000-mile fuel interval, and on which all
four control-relevant state quantities lie. -/
structure GridInv (ε : ℚ) (st : LegSt) : Prop where
  hε : 0 < ε
  half : OnGrid ε (1/2)
  thou : OnGrid (55 * ε) 1000
  duty_lat : OnGrid ε st.sim.current_duty_hours
  driving_lat : OnGrid ε st.sim.current_driving_hours
  rem_lat : OnGrid (55 * ε) st.remaining_distance
  msf_lat : OnGrid (55 * ε) (st.sim.miles_driven - st.last_fuel_miles)

theorem leg_checks_grid (c : LegCtx) (ε : ℚ) (st : LegSt)
    (g : GridInv ε st) : GridInv ε (leg_checks c st) := by
  obtain ⟨hε, half, thou, du, dv, drem, dmsf⟩ := g
  unfold leg_checks leg_break_check leg_rest_check
  split_ifs
  · exact ⟨hε, half, thou,
      by simp only [take_rest_spec, take_break_spec]
         simpa using (OnGrid.zero ε).add half,
      by simp only [take_rest_spec, take_break_spec]
         simpa using OnGrid.zero ε,
      by simpa [take_rest_spec, take_break_spec] using drem,
      by simpa [take_rest_spec, take_break_spec] using dmsf⟩
  · exact ⟨hε, half, thou,
      by simp only [take_rest_spec]
         simpa using OnGrid.zero ε,
      by simp only [take_rest_spec]
         simpa using OnGrid.zero ε,
      by simpa [take_rest_spec] using drem,
      by simpa [take_rest_spec] using dmsf⟩
  · exact ⟨hε, half, thou,
      by simp only [take_break_spec]
         simpa using du.add half,
      by simp only [take_break_spec]
         simpa using OnGrid.zero ε,
      by simpa [take_break_spec] using drem,
      by simpa [take_break_spec] using dmsf⟩
  · exact ⟨hε, half, thou, du, dv, drem, dmsf⟩

theorem drive_segment_grid (c : LegCtx) (ε : ℚ) (st : LegSt)
    (g : GridInv ε st) : GridInv ε (drive_segment c st) := by
  obtain ⟨hε, half, thou, du, dv, drem, dmsf⟩ := g
  have h8 : OnGrid ε 8 := by
    have h := OnGrid.of_half (ε := ε) 16 half
    norm_num at h
    exact h
  have h11 : OnGrid ε 11 := by
    have h := OnGrid.of_half (ε := ε) 22 half
    norm_num at h
    exact h
  have h14 : OnGrid ε 14 := by
    have h := OnGrid.of_half (ε := ε) 28 half
    norm_num at h
    exact h
  have hadt : OnGrid ε (available_drive_time st.sim) := by
    unfold available_drive_time
    exact (h11.sub dv).min ((h14.sub du).min (h8.sub (dv.pymod8 h8)))
  have hdm : OnGrid (55 * ε)
      (min (available_drive_time st.sim * 55) st.remaining_distance) :=
    hadt.mul55.min drem
  have hdtf : OnGrid (55 * ε)
      (1000 - (st.sim.miles_driven - st.last_fuel_miles)) := thou.sub dmsf
  simp only [drive_segment]
  split_ifs with hf
  · refine ⟨hε, half, thou, ?_, ?_, ?_, ?_⟩
    · simp only [add_fuel_stop_spec, apply_drive_spec]
      exact (du.add hdtf.div55).add half
    · simp only [add_fuel_stop_spec, apply_drive_spec]
      exact dv.add hdtf.div55
    · simp only [add_fuel_stop_spec, apply_drive_spec]
      exact drem.sub hdtf
    · simp only [add_fuel_stop_spec, apply_drive_spec]
      simpa using OnGrid.zero (55 * ε)
  · refine ⟨hε, half, thou, ?_, ?_, ?_, ?_⟩
    · simp only [apply_drive_spec]
      exact du.add hdm.div55
    · simp only [apply_drive_spec]
      exact dv.add hdm.div55
    · simp only [apply_drive_spec]
      exact drem.sub hdm
    · simp only [apply_drive_spec]
      have heq : st.sim.miles_driven
            + min (available_drive_time st.sim * 55) st.remaining_distance
            - st.last_fuel_miles
          = (st.sim.miles_driven - st.last_fuel_miles)
            + min (available_drive_time st.sim * 55) st.remaining_distance := by
        ring
      rw [heq]
      exact dmsf.add hdm

theorem leg_step_grid (c : LegCtx) (ε : ℚ) (st : LegSt)
    (g : GridInv ε st) : GridInv ε (leg_step c st) :=
  drive_segment_grid c ε _ (leg_checks_grid c ε st g)

theorem leg_loop_terminates_aux (c : LegCtx) (ε : ℚ) :
    ∀ (k : ℕ) (st : LegSt), GridInv ε st → LegInv st →
      0 ≤ st.remaining_distance →
      st.remaining_distance ≤ (k : ℚ) * (55 * ε) →
      ∃ n r, leg_loop c n st = some r := by
  intro k
  induction k with
  | zero =>
    intro st g inv h0 hk
    norm_num at hk
    exact ⟨0, st, by simp [leg_loop, hk]⟩
  | succ k ih =>
    intro st g inv h0 hk
    by_cases hR : st.remaining_distance ≤ 0
    · exact ⟨0, st, by simp [leg_loop, hR]⟩
    · push_neg at hR
      obtain ⟨inv', hle, hzero, _⟩ := leg_step_post c st inv hR
      have g' := leg_step_grid c ε st g
      have h0' := leg_step_remaining_nonneg c st (le_of_lt hR)
      have h55 : 0 < 55 * ε := by nlinarith [g.hε]
      rcases lt_or_eq_of_le hle with hlt | heq
      · have hdq : OnGrid (55 * ε)
            (st.remaining_distance - (leg_step c st).remaining_distance) :=
          g.rem_lat.sub g'.rem_lat
        have hq : (leg_step c st).remaining_distance
            ≤ st.remaining_distance - 55 * ε := by
          have := OnGrid.ge_of_pos h55 hdq (by linarith)
          linarith
        have hk' : (leg_step c st).remaining_distance ≤ (k : ℚ) * (55 * ε) := by
          push_cast at hk
          linarith
        obtain ⟨n, r, hn⟩ := ih (leg_step c st) g' inv' h0' hk'
        exact ⟨n + 1, r,
          by rw [leg_loop_step_eq c n st (not_le.mpr hR)]; exact hn⟩
      · have hduty : (leg_step c st).sim.current_duty_hours = 14 :=
          hzero heq
        have hR' : 0 < (leg_step c st).remaining_distance := by
          rw [← heq] at hR
          exact hR
        obtain ⟨inv'', hle2, _, hprog⟩ := leg_step_post c (leg_step c st) inv' hR'
        have hlt2 : (leg_step c (leg_step c st)).remaining_distance
            < (leg_step c st).remaining_distance := hprog (by rw [hduty])
        have g'' := leg_step_grid c ε _ g'
        have hdq : OnGrid (55 * ε)
            ((leg_step c st).remaining_distance
              - (leg_step c (leg_step c st)).remaining_distance) :=
          g'.rem_lat.sub g''.rem_lat
        have hq : (leg_step c (leg_step c st)).remaining_distance
            ≤ (leg_step c st).remaining_distance - 55 * ε := by
          have := OnGrid.ge_of_pos h55 hdq (by linarith)
          linarith
        have h0'' := leg_step_remaining_nonneg c (leg_step c st) (le_of_lt hR')
        have hk'' : (leg_step c (leg_step c st)).remaining_distance
            ≤ (k : ℚ) * (55 * ε) := by
          push_cast at hk
          rw [← heq] at hk
          linarith
        obtain ⟨n, r, hn⟩ := ih (leg_step c (leg_step c st)) g'' inv'' h0'' hk''
        exact ⟨n + 1 + 1, r, by
          rw [leg_loop_step_eq c (n + 1) st (not_le.mpr hR),
            leg_loop_step_eq c n (leg_step c st) (not_le.mpr hR')]
          exact hn⟩

/-- C9. Termination of the `while remaining_distance > 0` loop of
`_simulate_leg`: from any nonnegative finite leg distance and any entry
state satisfying the loop invariant (driving clock in `[0, 8]`, duty
exceeding driving by half-hours, fuel counter in `[0, 1000)`) together
with the lattice invariant that all quantities share a rational grid
(which holds for every state the orchestrator can produce), some finite
iteration budget drives `remaining_distance` to `≤ 0`: every iteration
either strictly decreases the remaining distance by at least one grid
step, or makes no progress with duty pinned at exactly 14 — in which case
the next iteration rests and makes strictly positive progress. -/
theorem leg_loop_always_terminates (c : LegCtx) (ε : ℚ) (st : LegSt)
    (g : GridInv ε st) (inv : LegInv st)
    (h0 : 0 ≤ st.remaining_distance) :
    ∃ n r, leg_loop c n st = some r ∧ r.remaining_distance ≤ 0 := by
  have h55 : 0 < 55 * ε := by nlinarith [g.hε]
  have hk : st.remaining_distance
      ≤ ((⌈st.remaining_distance / (55 * ε)⌉.toNat : ℕ) : ℚ) * (55 * ε) := by
    have h1 : st.remaining_distance / (55 * ε)
        ≤ (⌈st.remaining_distance / (55 * ε)⌉ : ℚ) := Int.le_ceil _
    have h2 : (0 : ℤ) ≤ ⌈st.remaining_distance / (55 * ε)⌉ :=
      Int.ceil_nonneg (div_nonneg h0 (le_of_lt h55))
    have h3 : ((⌈st.remaining_distance / (55 * ε)⌉.toNat : ℕ) : ℚ)
        = (⌈st.remaining_distance / (55 * ε)⌉ : ℚ) := by
      exact_mod_cast congrArg Int.cast (Int.toNat_of_nonneg h2)
    rw [h3]
    rw [div_le_iff h55] at h1
    linarith
  obtain ⟨n, r, hn⟩ := leg_loop_terminates_aux c ε
    (⌈st.remaining_distance / (55 * ε)⌉.toNat) st g inv h0 hk
  exact ⟨n, r, hn, (leg_loop_exit c n st r hn).2.1⟩

/-- C9 witness: the 600-mile leg terminates from a fresh morning state
(grid unit `ε = 1/22`). -/
theorem leg_loop_always_terminates_witness :
    ∃ n r, leg_loop c3ctx n ⟨c3state, 600, 0, 0⟩ = some r ∧
      r.remaining_distance ≤ 0 :=
  leg_loop_always_terminates c3ctx (1/22) ⟨c3state, 600, 0, 0⟩
    ⟨by norm_num, ⟨11, by norm_num⟩, ⟨400, by norm_num⟩,
      ⟨0, by norm_num [c3state]⟩, ⟨0, by norm_num [c3state]⟩,
      ⟨240, by norm_num⟩, ⟨0, by norm_num [c3state]⟩⟩
    ⟨by norm_num [c3state], by norm_num [c3state],
      ⟨0, by norm_num [c3state]⟩, by norm_num [c3state],
      by norm_num [c3state]⟩
    (by norm_num)

/-! ### Conservation of time in the daily-log compiler -/

/-- Sum of the four per-status totals of one log sheet. -/
def totalsSumOf (l : DayLog) : ℚ :=
  l.totals.offDuty + l.totals.sleeperBerth + l.totals.driving
    + l.totals.onDuty

/-- Sum of all per-status totals over all log sheets. -/
def logsTotal (logs : List DayLog) : ℚ := (logs.map totalsSumOf).sum

/-- The duty-status-change/remark stamp appended by the first `updateDay`
of `processEvent`. -/
def stampF (e : Event) : DayLog → DayLog := fun l =>
  { l with
    dutyStatusChanges := l.dutyStatusChanges ++
      [{ time := hmOf e.time, status := e.status, location := e.description }],
    remarks := l.remarks ++ [(hmOf e.time, e.description)] }

/-- The midnight continuation entry inserted on the next day's sheet. -/
def contF (e : Event) : DayLog → DayLog := fun l =>
  { l with dutyStatusChanges :=
      { time := (0, 0), status := e.status,
        location := e.description ++ " (continued)" } ::
      l.dutyStatusChanges }

theorem processEvent_eq (logs : List DayLog) (e : Event)
    (next? : Option Event) :
    processEvent logs e next? =
      match next? with
      | none => updateDay (ensureDay logs e.day (dateOf e.time)) e.day (stampF e)
      | some nx =>
        if nx.day = e.day then
          creditDay
            (updateDay (ensureDay logs e.day (dateOf e.time)) e.day (stampF e))
            e.day e.status (nx.time - e.time)
        else
          creditDay
            (updateDay
              (ensureDay
                (creditDay
                  (updateDay (ensureDay logs e.day (dateOf e.time)) e.day
                    (stampF e))
                  e.day e.status
                  (24 * (dateOf e.time : ℚ) + (24 - 1/3600000000) - e.time))
                nx.day (dateOf nx.time))
              nx.day (contF e))
            nx.day e.status
            ((nx.time - e.time)
              - (24 * (dateOf e.time : ℚ) + (24 - 1/3600000000) - e.time)) := by
  cases next? <;> rfl

theorem updateDay_total_add (d : ℤ) (f : DayLog → DayLog) (δ : ℚ)
    (hf : ∀ l, totalsSumOf (f l) = totalsSumOf l + δ) :
    ∀ logs : List DayLog, hasDay logs d = true →
      logsTotal (updateDay logs d f) = logsTotal logs + δ := by
  intro logs
  induction logs with
  | nil => intro h; simp [hasDay] at h
  | cons l rest ih =>
    intro h
    simp only [updateDay]
    split_ifs with hd
    · simp [logsTotal, hf l]
      ring
    · have hr : hasDay rest d = true := by
        simp [hasDay] at h ⊢
        rcases h with h | h
        · exact absurd h hd
        · exact h
      simp only [logsTotal, List.map_cons, List.sum_cons] at *
      rw [ih hr]
      ring

theorem updateDay_total_keep (d : ℤ) (f : DayLog → DayLog)
    (hf : ∀ l, totalsSumOf (f l) = totalsSumOf l) :
    ∀ logs : List DayLog,
      logsTotal (updateDay logs d f) = logsTotal logs := by
  intro logs
  induction logs with
  | nil => rfl
  | cons l rest ih =>
    simp only [updateDay]
    split_ifs with hd
    · simp [logsTotal, hf l]
    · simp only [logsTotal, List.map_cons, List.sum_cons] at *
      rw [ih]

theorem ensureDay_total (logs : List DayLog) (d date : ℤ) :
    logsTotal (ensureDay logs d date) = logsTotal logs := by
  unfold ensureDay
  split_ifs
  · rfl
  · simp [logsTotal, newDayLog, totalsSumOf]

theorem hasDay_ensureDay_self (logs : List DayLog) (d date : ℤ) :
    hasDay (ensureDay logs d date) d = true := by
  unfold ensureDay
  split_ifs with h
  · exact h
  · simp [hasDay, List.any_append, newDayLog]

theorem hasDay_updateDay (d : ℤ) (f : DayLog → DayLog)
    (hf : ∀ l, (f l).day = l.day) :
    ∀ (logs : List DayLog) (d' : ℤ),
      hasDay (updateDay logs d f) d' = hasDay logs d' := by
  intro logs
  induction logs with
  | nil => intro d'; rfl
  | cons l rest ih =>
    intro d'
    simp only [updateDay]
    split_ifs with hd
    · simp [hasDay, hf l]
    · have h' := ih d'
      simp only [hasDay] at h' ⊢
      rw [List.any_cons, List.any_cons, h']

theorem creditDay_total (d : ℤ) (status : DutyStatus) (dur : ℚ)
    (logs : List DayLog) (h : hasDay logs d = true) :
    logsTotal (creditDay logs d status dur) = logsTotal logs + dur := by
  unfold creditDay
  refine updateDay_total_add d _ dur (fun l => ?_) logs h
  cases status <;> simp [totalsSumOf] <;> ring

theorem hasDay_creditDay (d : ℤ) (status : DutyStatus) (dur : ℚ)
    (logs : List DayLog) (d' : ℤ) :
    hasDay (creditDay logs d status dur) d' = hasDay logs d' := by
  unfold creditDay
  refine hasDay_updateDay d _ (fun l => ?_) logs d'
  cases status <;> rfl

/-- Processing one event adds exactly the gap to the next event (and
nothing when there is none) to the grand total, however the gap is split
around midnight. -/
theorem processEvent_total (logs : List DayLog) (e : Event)
    (next? : Option Event) :
    logsTotal (processEvent logs e next?)
      = logsTotal logs
        + (match next? with | none => 0 | some nx => nx.time - e.time) := by
  have hst : ∀ l, totalsSumOf (stampF e l) = totalsSumOf l := fun l => rfl
  have hsd : ∀ l, (stampF e l).day = l.day := fun l => rfl
  have hct : ∀ l, totalsSumOf (contF e l) = totalsSumOf l := fun l => rfl
  have hcd : ∀ l, (contF e l).day = l.day := fun l => rfl
  have h1 : hasDay
      (updateDay (ensureDay logs e.day (dateOf e.time)) e.day (stampF e))
      e.day = true := by
    rw [hasDay_updateDay e.day (stampF e) hsd]
    exact hasDay_ensureDay_self logs e.day (dateOf e.time)
  have h2 : logsTotal
      (updateDay (ensureDay logs e.day (dateOf e.time)) e.day (stampF e))
      = logsTotal logs := by
    rw [updateDay_total_keep e.day (stampF e) hst, ensureDay_total]
  rw [processEvent_eq]
  cases next? with
  | none =>
    rw [h2]
    ring
  | some nx =>
    dsimp only
    split_ifs with hsame
    · rw [creditDay_total _ _ _ _ h1, h2]
    · rw [creditDay_total _ _ _ _ (by
        rw [hasDay_updateDay nx.day (contF e) hcd]
        exact hasDay_ensureDay_self _ _ _)]
      rw [updateDay_total_keep nx.day (contF e) hct]
      rw [ensureDay_total]
      rw [creditDay_total _ _ _ _ h1]
      rw [h2]
      ring

/-- Sum of the time gaps between consecutive events of a stream. -/
def gapsSum : List Event → ℚ
  | [] => 0
  | [_] => 0
  | e :: nx :: rest => (nx.time - e.time) + gapsSum (nx :: rest)

theorem logsLoop_total :
    ∀ (events : List Event) (logs : List DayLog),
      logsTotal (logsLoop events logs) = logsTotal logs + gapsSum events := by
  intro events
  induction events with
  | nil => intro logs; simp [logsLoop, gapsSum]
  | cons e rest ih =>
    intro logs
    rw [logsLoop, ih, processEvent_total]
    cases rest with
    | nil => simp [gapsSum]
    | cons nx tl =>
      simp only [List.head?, gapsSum]
      ring

theorem gapsSum_telescopes :
    ∀ (rest : List Event) (e : Event),
      gapsSum (e :: rest)
        = ((e :: rest).getLast (List.cons_ne_nil e rest)).time - e.time := by
  intro rest
  induction rest with
  | nil => intro e; simp [gapsSum]
  | cons nx tl ih =>
    intro e
    rw [gapsSum, ih nx, List.getLast_cons (List.cons_ne_nil nx tl)]
    ring

/-- C4: over any non-empty event stream, the daily-log compiler conserves
time before the final rounding pass: the four per-status totals, summed
over every generated log sheet, add up exactly to the wall-clock span from
the first event's timestamp to the last event's timestamp, however many
midnight splits occur in between. -/
theorem daily_log_totals_sum_to_span (e : Event) (rest : List Event) :
    logsTotal (generate_daily_logs_raw (e :: rest))
      = ((e :: rest).getLast (List.cons_ne_nil e rest)).time - e.time := by
  rw [generate_daily_logs_raw, logsLoop_total, gapsSum_telescopes]
  simp [logsTotal]
